import Mathlib

/-!
# mod_rewrite: rewrite engine, scope cascade and configuration loading

A shallow embedding of `src/src/mod_rewrite.c` (the `HAVE_PCRE_H` build).

* C buffers are `String`s; a NULL pointer is `none`.
* `con->plugin_ctx[p->id]` is `connection.plugin_ctx : Option handler_ctx`.
* The regular-expression library, the template expander of `keyvalue.c`, the
  condition evaluator, the condition cache and the stat cache are not part of
  `mod_rewrite.c`; they are the fields of `collaborators`.
* A call that dereferences a NULL pointer has no defined result; the functions
  that can do so return `Option`, `none` being that fault.
* `int` arithmetic on the loop counter wraps at 32 bits (`int_wrap`).
-/

namespace ModRewrite

/-! ## Data model -/

/-- The values of `handler_t` that `mod_rewrite.c` returns. -/
inductive handler_t where
  | HANDLER_GO_ON
  | HANDLER_COMEBACK
  | HANDLER_ERROR
  deriving DecidableEq, Repr

/-- The anonymous enum of `handler_ctx.state`. -/
inductive rewrite_state where
  | REWRITE_STATE_UNSET
  | REWRITE_STATE_FINISHED
  deriving DecidableEq, Repr

/-- The per-request state `handler_ctx`. -/
structure handler_ctx where
  state : rewrite_state
  loops : Int
  deriving DecidableEq, Repr

/-- The C function `handler_ctx_init`: state unset, no loops counted. -/
def handler_ctx_init : handler_ctx :=
  { state := rewrite_state.REWRITE_STATE_UNSET, loops := 0 }

/-- Two's-complement wrap of a 32-bit `int`. -/
def int_wrap (x : Int) : Int := (x + 2147483648) % 4294967296 - 2147483648

/-- The struct `rewrite_rule`: compiled pattern, template, and the `once` flag. -/
structure rewrite_rule (pcre : Type) where
  key : pcre
  value : String
  once : Int

/-- The struct `rewrite_rule_buffer`; `ptr` holds the `used` rules in order
(`used = ptr.length`), `size` is the allocated capacity. -/
structure rewrite_rule_buffer (pcre : Type) where
  ptr : List (rewrite_rule pcre)
  size : Nat

/-- What a directive entry of a scope holds: `kvlist` is a `TYPE_ARRAY` whose
elements are all `key => string` pairs (the case `array_is_kvstring` accepts),
`other` is any other value. -/
inductive data_value where
  | kvlist (l : List (String × String))
  | other
  deriving DecidableEq, Repr

/-- One raw entry `dc->value->data[j]` of a scope (`data_unset`). -/
structure data_unset where
  key : String
  value : data_value
  deriving DecidableEq, Repr

/-- A configuration scope (`data_config`): its description `comp_key`, `op`,
`string`, its index, and its raw directive entries. -/
structure data_config where
  comp_key : String
  op : String
  string : String
  context_ndx : Nat
  value : List data_unset
  deriving DecidableEq, Repr

/-- The struct `plugin_config`: rule-set pointers and owning scopes per kind. -/
structure plugin_config (pcre : Type) where
  rewrite : Option (rewrite_rule_buffer pcre)
  rewrite_NF : Option (rewrite_rule_buffer pcre)
  context : Option data_config
  context_NF : Option data_config

/-- The constant `DIRECT` of `con->mode`. -/
def DIRECT : Nat := 0

/-- The fields of `connection` that `mod_rewrite.c` reads or writes. -/
structure connection where
  plugin_ctx : Option handler_ctx
  uri : String
  physical_path : String
  mode : Nat
  deriving DecidableEq, Repr

/-- The result of `pcre_exec` on a subject: the return value `n` and the
substrings that `pcre_get_substring_list` then extracts from `ovec`. -/
structure exec_result where
  n : Int
  list : List String
  deriving DecidableEq, Repr

/-- The constant `PCRE_ERROR_NOMATCH` of `pcre.h`. -/
def PCRE_ERROR_NOMATCH : Int := -1

/-- What `stat_cache_get_entry` yields on success: whether `S_ISREG` holds of
the entry's mode. -/
structure stat_cache_entry where
  is_reg : Bool
  deriving DecidableEq, Repr

/-- The messages `mod_rewrite.c` writes with `log_error_write`. -/
inductive log_entry where
  | endless_loop (comp_key op string : String)
  | exec_error (n : Int)
  | unexpected_value (option : String)
  | pcre_compile_failed (key : String)
  deriving DecidableEq, Repr

/-- The functions `mod_rewrite.c` calls but does not define. `cond_cache ndx`
is the entry `con->cond_cache[ndx]`; `stat_cache_get_entry` is `none` when the
lookup returns `HANDLER_ERROR`; `config_insert_values_global` takes the raw
entries and whether the scope is the global one, and returns the C status (0 on
success). -/
structure collaborators (pcre cond_cache_t : Type) where
  pcre_compile : String → Option pcre
  pcre_exec : pcre → String → exec_result
  pcre_keyvalue_buffer_subst : String → List String → Int → Option cond_cache_t → String
  cond_cache : Nat → cond_cache_t
  config_check_cond : connection → data_config → Bool
  stat_cache_get_entry : String → Option stat_cache_entry
  config_insert_values_global : List data_unset → Bool → Int

/-- What one handler invocation produces: the return code, the connection
afterwards, and the messages logged. -/
abbrev outcome := handler_t × connection × List log_entry

section engine

variable {pcre cond_cache_t : Type}

/-! ## The rewrite engine -/

/-- The `for` loop of `process_rewrite_rules` (lines 363-408) over the rules not
yet tried; `match_buf` is the copy of the request URI taken before the loop. -/
def scan_rules (E : collaborators pcre cond_cache_t) (context : Option data_config)
    (match_buf : String) (con : connection) : List (rewrite_rule pcre) → outcome
  | [] => (handler_t.HANDLER_GO_ON, con, [])
  | rule :: rest =>
    let m := E.pcre_exec rule.key match_buf
    if m.n < 0 then
      if m.n ≠ PCRE_ERROR_NOMATCH then
        (handler_t.HANDLER_ERROR, con, [log_entry.exec_error m.n])
      else scan_rules E context match_buf con rest
    else if rule.value.length = 0 then
      (handler_t.HANDLER_GO_ON, con, [])
    else
      let cache := context.map (fun dc => E.cond_cache dc.context_ndx)
      let uri := E.pcre_keyvalue_buffer_subst rule.value m.list m.n cache
      let hctx := match con.plugin_ctx with
        | none => handler_ctx_init
        | some h => h
      let hctx := if rule.once ≠ 0 then
          { hctx with state := rewrite_state.REWRITE_STATE_FINISHED } else hctx
      (handler_t.HANDLER_COMEBACK, { con with uri := uri, plugin_ctx := some hctx }, [])

/-- The C function `process_rewrite_rules`; `context` is `p->conf.context`.
The result is `none` when line 352 reads `dc->comp_key` through a NULL
`p->conf.context`. -/
def process_rewrite_rules (E : collaborators pcre cond_cache_t)
    (context : Option data_config) (con : connection)
    (kvb : rewrite_rule_buffer pcre) : Option outcome :=
  match con.plugin_ctx with
  | some hctx =>
    let con1 := { con with plugin_ctx := some { hctx with loops := int_wrap (hctx.loops + 1) } }
    if hctx.loops > 100 then
      match context with
      | none => none
      | some dc =>
        some (handler_t.HANDLER_ERROR, con1,
          [log_entry.endless_loop dc.comp_key dc.op dc.string])
    else if hctx.state = rewrite_state.REWRITE_STATE_FINISHED then
      some (handler_t.HANDLER_GO_ON, con1, [])
    else some (scan_rules E context con1.uri con1 kvb.ptr)
  | none => some (scan_rules E context con.uri con kvb.ptr)

/-! ## Scope cascade -/

/-- The body of the merge loop of `mod_rewrite_patch_connection` (lines
301-321) for one raw entry `du` of a matching scope `dc` with storage `s`. -/
def patch_entry (dc : data_config) (s : plugin_config pcre)
    (conf : plugin_config pcre) (du : data_unset) : plugin_config pcre :=
  if du.key = "url.rewrite" then
    { conf with rewrite := s.rewrite, context := some dc }
  else if du.key = "url.rewrite-once" then
    { conf with rewrite := s.rewrite, context := some dc }
  else if du.key = "url.rewrite-repeat" then
    { conf with rewrite := s.rewrite, context := some dc }
  else if du.key = "url.rewrite-if-not-file" then
    { conf with rewrite_NF := s.rewrite_NF, context_NF := some dc }
  else if du.key = "url.rewrite-repeat-if-not-file" then
    { conf with rewrite_NF := s.rewrite_NF, context_NF := some dc }
  else if du.key = "url.rewrite-final" then
    { conf with rewrite := s.rewrite, context := some dc }
  else conf

/-- One iteration of the outer loop of `mod_rewrite_patch_connection` (lines
293-322): skip the scope when its condition does not hold, else merge it. -/
def patch_scope (E : collaborators pcre cond_cache_t) (con : connection)
    (conf : plugin_config pcre) (x : data_config × plugin_config pcre) : plugin_config pcre :=
  if !E.config_check_cond con x.1 then conf
  else x.1.value.foldl (patch_entry x.1 x.2) conf

/-- The C function `mod_rewrite_patch_connection`, returning the new `p->conf`.
The argument pairs `srv->config_context->data[i]` with `p->config_storage[i]`;
it is `none` when there is no entry 0 to read. -/
def mod_rewrite_patch_connection (E : collaborators pcre cond_cache_t) (con : connection) :
    List (data_config × plugin_config pcre) → Option (plugin_config pcre)
  | [] => none
  | x :: rest =>
    some (rest.foldl (patch_scope E con)
      { rewrite := x.2.rewrite, rewrite_NF := x.2.rewrite_NF,
        context := none, context_NF := none })

/-! ## Request hooks -/

/-- The C function `mod_rewrite_con_reset`: free and clear the request state. -/
def mod_rewrite_con_reset (con : connection) : handler_t × connection :=
  (handler_t.HANDLER_GO_ON, { con with plugin_ctx := none })

/-- The `switch` of `mod_rewrite_physical` (lines 429-435): on
`HANDLER_COMEBACK` the physical path is reset, the code is returned as is. -/
def physical_switch : Option outcome → Option outcome
  | some (handler_t.HANDLER_COMEBACK, con, log) =>
    some (handler_t.HANDLER_COMEBACK, { con with physical_path := "" }, log)
  | r => r

/-- The C function `mod_rewrite_physical`. -/
def mod_rewrite_physical (E : collaborators pcre cond_cache_t)
    (srv : List (data_config × plugin_config pcre)) (con : connection) : Option outcome :=
  if con.mode ≠ DIRECT then some (handler_t.HANDLER_GO_ON, con, [])
  else
    match mod_rewrite_patch_connection E con srv with
    | none => none
    | some conf =>
      let conf := { conf with context := conf.context_NF }
      match conf.rewrite_NF with
      | none => some (handler_t.HANDLER_GO_ON, con, [])
      | some kvb =>
        let is_reg := match E.stat_cache_get_entry con.physical_path with
          | some sce => sce.is_reg
          | none => false
        if is_reg then some (handler_t.HANDLER_GO_ON, con, [])
        else physical_switch (process_rewrite_rules E conf.context con kvb)

/-- The C function `mod_rewrite_uri_handler`. -/
def mod_rewrite_uri_handler (E : collaborators pcre cond_cache_t)
    (srv : List (data_config × plugin_config pcre)) (con : connection) : Option outcome :=
  match mod_rewrite_patch_connection E con srv with
  | none => none
  | some conf =>
    match conf.rewrite with
    | none => some (handler_t.HANDLER_GO_ON, con, [])
    | some kvb => process_rewrite_rules E conf.context con kvb

/-! ## Configuration loading -/

/-- The C function `rewrite_rule_buffer_init`. -/
def rewrite_rule_buffer_init : rewrite_rule_buffer pcre := { ptr := [], size := 0 }

/-- The C function `rewrite_rule_buffer_append`: status (0 or -1) and the
buffer afterwards. -/
def rewrite_rule_buffer_append (E : collaborators pcre cond_cache_t)
    (kvb : rewrite_rule_buffer pcre) (key : Option String) (value : String) (once : Int) :
    Int × rewrite_rule_buffer pcre :=
  match key with
  | none => (-1, kvb)
  | some key =>
    let kvb1 : rewrite_rule_buffer pcre :=
      if kvb.size = 0 then { ptr := [], size := 4 }
      else if kvb.ptr.length = kvb.size then { kvb with size := kvb.size + 4 }
      else kvb
    match E.pcre_compile key with
    | none => (-1, kvb1)
    | some k => (0, { kvb1 with ptr := kvb1.ptr ++ [{ key := k, value := value, once := once }] })

/-- The `for` loop of `parse_config_entry` (lines 185-194); `none` is falling
out of the loop, `some HANDLER_ERROR` the early return. -/
def parse_config_loop (E : collaborators pcre cond_cache_t) (once : Int) :
    rewrite_rule_buffer pcre → List (String × String) →
      Option handler_t × rewrite_rule_buffer pcre × List log_entry
  | kvb, [] => (none, kvb, [])
  | kvb, ds :: rest =>
    let r := rewrite_rule_buffer_append E kvb (some ds.1) ds.2 once
    if r.1 ≠ 0 then
      (some handler_t.HANDLER_ERROR, r.2, [log_entry.pcre_compile_failed ds.1])
    else parse_config_loop E once r.2 rest

/-- The C function `parse_config_entry` (the `HAVE_PCRE_H` one); the status
`none` is `return 0`. `array_get_element_klen` is the lookup by key. -/
def parse_config_entry (E : collaborators pcre cond_cache_t) (ca : List data_unset)
    (kvb : rewrite_rule_buffer pcre) (option : String) (once : Int) :
    Option handler_t × rewrite_rule_buffer pcre × List log_entry :=
  match ca.find? (fun du => du.key = option) with
  | some du =>
    match du.value with
    | data_value.other =>
      (some handler_t.HANDLER_ERROR, kvb, [log_entry.unexpected_value option])
    | data_value.kvlist l => parse_config_loop E once kvb l
  | none => (none, kvb, [])

/-- Lines 267-272 of `mod_rewrite_set_defaults` for one scope: the six calls of
`parse_config_entry`, whose return values the C code does not read. -/
def set_defaults_scope (E : collaborators pcre cond_cache_t) (config : data_config) :
    plugin_config pcre × List log_entry :=
  let r1 := parse_config_entry E config.value rewrite_rule_buffer_init "url.rewrite-once" 1
  let r2 := parse_config_entry E config.value r1.2.1 "url.rewrite-final" 1
  let r3 := parse_config_entry E config.value rewrite_rule_buffer_init "url.rewrite-if-not-file" 1
  let r4 := parse_config_entry E config.value r3.2.1 "url.rewrite-repeat-if-not-file" 0
  let r5 := parse_config_entry E config.value r2.2.1 "url.rewrite" 1
  let r6 := parse_config_entry E config.value r5.2.1 "url.rewrite-repeat" 0
  ({ rewrite := some r6.2.1, rewrite_NF := some r4.2.1, context := none, context_NF := none },
    r1.2.2 ++ r2.2.2 ++ r3.2.2 ++ r4.2.2 ++ r5.2.2 ++ r6.2.2)

/-- The loop of `mod_rewrite_set_defaults` (lines 249-273) from scope index `i`
on: the return code, the entries of `p->config_storage` from `i` on (`none` is
a slot left NULL), and the messages logged. -/
def set_defaults_loop (E : collaborators pcre cond_cache_t) :
    Nat → List data_config → handler_t × List (Option (plugin_config pcre)) × List log_entry
  | _, [] => (handler_t.HANDLER_GO_ON, [], [])
  | i, config :: rest =>
    if E.config_insert_values_global config.value (i == 0) ≠ 0 then
      (handler_t.HANDLER_ERROR,
        some { rewrite := some rewrite_rule_buffer_init,
               rewrite_NF := some rewrite_rule_buffer_init,
               context := none, context_NF := none } :: rest.map (fun _ => none), [])
    else
      let s := set_defaults_scope E config
      let r := set_defaults_loop E (i + 1) rest
      (r.1, some s.1 :: r.2.1, s.2 ++ r.2.2)

/-- The C function `mod_rewrite_set_defaults` on `srv->config_context`. -/
def mod_rewrite_set_defaults (E : collaborators pcre cond_cache_t)
    (config_context : List data_config) :
    handler_t × List (Option (plugin_config pcre)) × List log_entry :=
  set_defaults_loop E 0 config_context

/-! ## The host re-driving a phase -/

/-- The host calling `process_rewrite_rules` again after each
`HANDLER_COMEBACK`, for at most `fuel` passes: `none` when every one of the
`fuel` passes returned `HANDLER_COMEBACK`, else the number of passes made and
what the last one returned. -/
def redrive (E : collaborators pcre cond_cache_t) (context : Option data_config)
    (kvb : rewrite_rule_buffer pcre) : Nat → connection → Option (Nat × Option outcome)
  | 0, _ => none
  | fuel + 1, con =>
    match process_rewrite_rules E context con kvb with
    | some (handler_t.HANDLER_COMEBACK, con1, _) =>
      (redrive E context kvb fuel con1).map (fun r => (r.1 + 1, r.2))
    | r => some (1, r)

/-- The connection after `k` invocations of `process_rewrite_rules` made one
after the other whatever they return; `none` once an invocation has faulted. -/
def invoke_times (E : collaborators pcre cond_cache_t) (context : Option data_config)
    (kvb : rewrite_rule_buffer pcre) : Nat → connection → Option connection
  | 0, con => some con
  | k + 1, con =>
    match process_rewrite_rules E context con kvb with
    | none => none
    | some r => invoke_times E context kvb k r.2.1

end engine

/-! ## A concrete matcher for closed examples -/

/-- Modelled from the spec: the template expander `pcre_keyvalue_buffer_subst`
of `keyvalue.c`, which is not under `src/`. A marker `$N` with `N` a digit is
replaced by the `N`-th captured substring, or by nothing when there is no such
capture; every other character is copied. -/
def expand_template (list : List String) : List Char → List Char
  | [] => []
  | [c] => [c]
  | c :: d :: rest =>
    if c = '$' ∧ d.isDigit then (list.getD (d.toNat - 48) "").data ++ expand_template list rest
    else c :: expand_template list (d :: rest)

/-- A matcher for the patterns `^literal$` (whole subject) and `^literal`
(prefix of the subject), on which it agrees with PCRE for literals without
metacharacters; a compiled pattern is its source text. -/
def example_exec (pat subj : String) : exec_result :=
  match pat.data with
  | '^' :: body =>
    if body.getLast? = some '$' then
      if subj.data = body.dropLast then { n := 1, list := [subj] }
      else { n := PCRE_ERROR_NOMATCH, list := [] }
    else if body.isPrefixOf subj.data then { n := 1, list := [String.mk body] }
    else { n := PCRE_ERROR_NOMATCH, list := [] }
  | _ => { n := PCRE_ERROR_NOMATCH, list := [] }

/-- The patterns `example_exec` handles compile; anything else, such as the
unbalanced `(`, is rejected. -/
def example_compile (pat : String) : Option String :=
  match pat.data with
  | '^' :: body => if body.all (fun c => c.isAlphanum || c = '/' || c = '$') then some pat else none
  | _ => none

/-- Collaborators for closed examples: every condition holds, no file exists,
`config_insert_values_global` succeeds. -/
def example_collaborators : collaborators String Unit where
  pcre_compile := example_compile
  pcre_exec := example_exec
  pcre_keyvalue_buffer_subst := fun value list _ _ => String.mk (expand_template list value.data)
  cond_cache := fun _ => ()
  config_check_cond := fun _ _ => true
  stat_cache_get_entry := fun _ => none
  config_insert_values_global := fun _ _ => 0

/-! ## Statement helpers -/

/-- The connection after the counter increment of line 349: the loop counter
of an existing request state goes up by one, an absent state stays absent. -/
def count_pass (con : connection) : connection :=
  { con with plugin_ctx :=
      con.plugin_ctx.map (fun h => { h with loops := int_wrap (h.loops + 1) }) }

/-- The request state is absent, or is not finished with a counter that is
not above the limit of 100: the invocation reaches the rule scan. -/
def reaches_scan (con : connection) : Prop :=
  ∀ h, con.plugin_ctx = some h →
    h.loops ≤ 100 ∧ h.state ≠ rewrite_state.REWRITE_STATE_FINISHED

/-- The request state is absent, or is not finished with an `int` counter
below 100: this invocation reaches the rule scan and the next one still finds
the counter at most 100. -/
def below_limit (con : connection) : Prop :=
  ∀ h, con.plugin_ctx = some h →
    -2147483648 ≤ h.loops ∧ h.loops < 100 ∧ h.state ≠ rewrite_state.REWRITE_STATE_FINISHED

/-- The request state a rewriting rule leaves (lines 394-401): the existing
state or a new one, marked finished when the rule is a once-rule. -/
def state_after_rewrite (ctx : Option handler_ctx) (once : Int) : handler_ctx :=
  if once ≠ 0 then
    { ctx.getD handler_ctx_init with state := rewrite_state.REWRITE_STATE_FINISHED }
  else ctx.getD handler_ctx_init

/-- A conditional scope on the request host used in closed examples. -/
def example_scope : data_config :=
  { comp_key := "HTTP[host]", op := "==", string := "example.org", context_ndx := 1,
    value := [] }

/-- The directive keys of the primary rewrite kind. -/
def is_primary_key (k : String) : Bool :=
  k = "url.rewrite" || k = "url.rewrite-once" || k = "url.rewrite-repeat"
    || k = "url.rewrite-final"

/-- The directive keys of the if-not-file rewrite kind. -/
def is_NF_key (k : String) : Bool :=
  k = "url.rewrite-if-not-file" || k = "url.rewrite-repeat-if-not-file"

section selection

variable {pcre cond_cache_t : Type}

/-- The non-root scope the cascade selects for a kind, in the spec's words: the
last-declared one among the scopes `rest` after the root whose condition
matches the request and that defines at least one directive key of the kind. -/
def last_matching_scope (E : collaborators pcre cond_cache_t) (con : connection)
    (is_key : String → Bool) (rest : List (data_config × plugin_config pcre)) :
    Option (data_config × plugin_config pcre) :=
  (rest.filter (fun x =>
    E.config_check_cond con x.1 && x.1.value.any (fun du => is_key du.key))).getLast?

/-- The effective selection in the spec's words: per kind, the rule set and
owning scope of the selected scope, else the rule set of the root `root_s` and
no owning scope. -/
def effective_selection (E : collaborators pcre cond_cache_t) (con : connection)
    (root_s : plugin_config pcre) (rest : List (data_config × plugin_config pcre)) :
    plugin_config pcre :=
  { rewrite := match last_matching_scope E con is_primary_key rest with
      | some x => x.2.rewrite
      | none => root_s.rewrite,
    rewrite_NF := match last_matching_scope E con is_NF_key rest with
      | some x => x.2.rewrite_NF
      | none => root_s.rewrite_NF,
    context := (last_matching_scope E con is_primary_key rest).map (fun x => x.1),
    context_NF := (last_matching_scope E con is_NF_key rest).map (fun x => x.1) }

end selection

/-- As `example_collaborators`, but a scope's condition holds exactly when its
`string` is `example.org`. -/
def example_host_collaborators : collaborators String Unit :=
  { example_collaborators with
    config_check_cond := fun _ dc => dc.string = "example.org" }

/-- One piece of a template in the spec's words: a literal character, or a
backreference marker `$N`. -/
inductive template_part where
  | lit (c : Char)
  | backref (N : Nat)
  deriving DecidableEq, Repr

/-- The digit character of `N` (for `N` in 0..9). -/
def digit_char (N : Nat) : Char := Char.ofNat (48 + N)

/-- A literal part is any character but `$`; a marker names a group 0..9. -/
def part_ok : template_part → Bool
  | template_part.lit c => c != '$'
  | template_part.backref N => decide (N < 10)

/-- The template text that a sequence of parts stands for. -/
def template_of_parts : List template_part → List Char
  | [] => []
  | template_part.lit c :: ps => c :: template_of_parts ps
  | template_part.backref N :: ps => '$' :: digit_char N :: template_of_parts ps

/-- The expansion in the spec's words: each marker `$N` replaced by the `N`-th
captured substring (nothing when there is no such capture), literals kept. -/
def expansion_of_parts (list : List String) : List template_part → List Char
  | [] => []
  | template_part.lit c :: ps => c :: expansion_of_parts list ps
  | template_part.backref N :: ps => (list.getD N "").data ++ expansion_of_parts list ps

/-- The collaborators `E` with the spec-modelled `expand_template` in the place
of `pcre_keyvalue_buffer_subst`. -/
def with_spec_expander {pcre cond_cache_t : Type} (E : collaborators pcre cond_cache_t) :
    collaborators pcre cond_cache_t :=
  { E with
    pcre_keyvalue_buffer_subst := fun value list _ _ =>
      String.mk (expand_template list value.data) }

/-- A matcher for the patterns `^literal(.+)$`: the subject is the literal
followed by at least one character and no newline, captured as group 1; every
other pattern is left to `example_exec`. -/
def example_capture_exec (pat subj : String) : exec_result :=
  match pat.data with
  | '^' :: body =>
    if body.drop (body.length - 5) = ['(', '.', '+', ')', '$'] then
      let lit := body.take (body.length - 5)
      let tail := subj.data.drop lit.length
      if lit.isPrefixOf subj.data ∧ tail ≠ [] ∧ tail.all (fun c => c != '\n') then
        { n := 2, list := [subj, String.mk tail] }
      else { n := PCRE_ERROR_NOMATCH, list := [] }
    else example_exec pat subj
  | _ => example_exec pat subj

/-- The example collaborators with `example_capture_exec` as matcher. -/
def example_capture_collaborators : collaborators String Unit :=
  { example_collaborators with pcre_exec := example_capture_exec }

/-- The example collaborators with a matcher that reports the execution fault
-8 (`PCRE_ERROR_MATCHLIMIT`) for the pattern `^/limit`. -/
def example_fault_collaborators : collaborators String Unit :=
  { example_collaborators with
    pcre_exec := fun pat subj =>
      if pat = "^/limit" then { n := -8, list := [] } else example_exec pat subj }

/-- What a caller sees of an outcome besides the fields the engine never
writes: the return code, the request state, the URI and the log. -/
def outcome_view (o : outcome) : handler_t × Option handler_ctx × String × List log_entry :=
  (o.1, o.2.1.plugin_ctx, o.2.1.uri, o.2.2)

section loading

variable {pcre cond_cache_t : Type}

/-- The rules that the entries of one directive give: each entry compiled, in
declaration order, up to the first pattern that `pcre_compile` rejects. -/
def compiled_rules (E : collaborators pcre cond_cache_t) (once : Int) :
    List (String × String) → List (rewrite_rule pcre)
  | [] => []
  | ds :: rest =>
    match E.pcre_compile ds.1 with
    | none => []
    | some k => { key := k, value := ds.2, once := once } :: compiled_rules E once rest

/-- The rules that the directive `option` of a scope with raw entries `ca`
gives when it is loaded with the flag `once`; none when the scope does not
define the directive or its value is not a list of string pairs. -/
def directive_rules (E : collaborators pcre cond_cache_t) (ca : List data_unset)
    (option : String) (once : Int) : List (rewrite_rule pcre) :=
  match ca.find? (fun du => du.key = option) with
  | some du =>
    match du.value with
    | data_value.kvlist l => compiled_rules E once l
    | data_value.other => []
  | none => []

/-- A buffer with no capacity holds no rules (true of `rewrite_rule_buffer_init`
and kept by `rewrite_rule_buffer_append`). -/
def buffer_wf (kvb : rewrite_rule_buffer pcre) : Prop := kvb.size = 0 → kvb.ptr = []

end loading

/-- A scope that declares `url.rewrite-once` before `url.rewrite-repeat`, with
rules for different URIs. -/
def example_once_then_repeat : data_config :=
  { comp_key := "HTTP[host]", op := "==", string := "example.org", context_ndx := 1,
    value := [⟨"url.rewrite-once", data_value.kvlist [("^/a$", "/o")]⟩,
              ⟨"url.rewrite-repeat", data_value.kvlist [("^/b$", "/r")]⟩] }

section later_invocations

variable {pcre cond_cache_t : Type}

end later_invocations

section lemmas

variable {pcre cond_cache_t : Type}

theorem int_wrap_of_range (x : Int) (h1 : -2147483648 ≤ x) (h2 : x < 2147483648) :
    int_wrap x = x := by
  unfold int_wrap
  rw [Int.emod_eq_of_lt (by omega) (by omega)]
  omega

theorem scan_rules_skip (E : collaborators pcre cond_cache_t) (context : Option data_config)
    (match_buf : String) (con : connection) (pre rest : List (rewrite_rule pcre))
    (hpre : ∀ q ∈ pre, (E.pcre_exec q.key match_buf).n = PCRE_ERROR_NOMATCH) :
    scan_rules E context match_buf con (pre ++ rest) = scan_rules E context match_buf con rest := by
  induction pre with
  | nil => rfl
  | cons q pre ih =>
    have hq : (E.pcre_exec q.key match_buf).n = PCRE_ERROR_NOMATCH := hpre q (by simp)
    have ih1 := ih (fun x hx => hpre x (by simp [hx]))
    simp only [List.cons_append, scan_rules, hq]
    simp [PCRE_ERROR_NOMATCH, ih1]

theorem scan_rules_head (E : collaborators pcre cond_cache_t) (context : Option data_config)
    (match_buf : String) (con : connection) (r : rewrite_rule pcre)
    (post : List (rewrite_rule pcre)) (hr : 0 ≤ (E.pcre_exec r.key match_buf).n) :
    scan_rules E context match_buf con (r :: post) = scan_rules E context match_buf con [r] := by
  have hn : ¬ (E.pcre_exec r.key match_buf).n < 0 := by omega
  simp only [scan_rules, hn, if_false]

theorem scan_rules_first (E : collaborators pcre cond_cache_t) (context : Option data_config)
    (match_buf : String) (con : connection) (pre post : List (rewrite_rule pcre))
    (r : rewrite_rule pcre)
    (hpre : ∀ q ∈ pre, (E.pcre_exec q.key match_buf).n = PCRE_ERROR_NOMATCH)
    (hr : 0 ≤ (E.pcre_exec r.key match_buf).n) :
    scan_rules E context match_buf con (pre ++ r :: post)
      = scan_rules E context match_buf con [r] := by
  rw [scan_rules_skip E context match_buf con pre (r :: post) hpre,
    scan_rules_head E context match_buf con r post hr]

theorem process_uri (E : collaborators pcre cond_cache_t) (context : Option data_config)
    (con : connection) (kvb : rewrite_rule_buffer pcre) (hs : reaches_scan con) :
    process_rewrite_rules E context con kvb
      = some (scan_rules E context con.uri (count_pass con) kvb.ptr) := by
  obtain ⟨ctx, uri, path, mode⟩ := con
  cases ctx with
  | none => rfl
  | some h =>
    obtain ⟨h1, h2⟩ := hs h rfl
    have h3 : ¬ h.loops > 100 := by omega
    simp [process_rewrite_rules, count_pass, h3, h2]

theorem below_limit_reaches_scan (con : connection) (hs : below_limit con) :
    reaches_scan con := by
  intro h hc
  obtain ⟨_, h2, h3⟩ := hs h hc
  exact ⟨by omega, h3⟩

theorem scan_rules_rewrite (E : collaborators pcre cond_cache_t) (context : Option data_config)
    (match_buf : String) (con : connection) (r : rewrite_rule pcre)
    (hr : 0 ≤ (E.pcre_exec r.key match_buf).n) (hv : r.value.length ≠ 0) :
    scan_rules E context match_buf con [r]
      = (handler_t.HANDLER_COMEBACK,
          { con with
            uri := E.pcre_keyvalue_buffer_subst r.value (E.pcre_exec r.key match_buf).list
              (E.pcre_exec r.key match_buf).n
              (context.map (fun dc => E.cond_cache dc.context_ndx)),
            plugin_ctx := some (state_after_rewrite con.plugin_ctx r.once) }, []) := by
  have hn : ¬ (E.pcre_exec r.key match_buf).n < 0 := by omega
  obtain ⟨ctx, uri, path, mode⟩ := con
  cases ctx <;> simp [scan_rules, hn, hv, state_after_rewrite]

theorem process_finished (E : collaborators pcre cond_cache_t) (context : Option data_config)
    (con : connection) (kvb : rewrite_rule_buffer pcre) (h : handler_ctx)
    (hc : con.plugin_ctx = some h) (hl : h.loops ≤ 100)
    (hf : h.state = rewrite_state.REWRITE_STATE_FINISHED) :
    process_rewrite_rules E context con kvb
      = some (handler_t.HANDLER_GO_ON, count_pass con, []) := by
  obtain ⟨ctx, uri, path, mode⟩ := con
  cases hc
  have h3 : ¬ h.loops > 100 := by omega
  simp [process_rewrite_rules, count_pass, h3, hf]

theorem process_over_limit (E : collaborators pcre cond_cache_t) (dc : data_config)
    (con : connection) (kvb : rewrite_rule_buffer pcre) (h : handler_ctx)
    (hc : con.plugin_ctx = some h) (hl : 100 < h.loops) :
    process_rewrite_rules E (some dc) con kvb
      = some (handler_t.HANDLER_ERROR, count_pass con,
          [log_entry.endless_loop dc.comp_key dc.op dc.string]) := by
  obtain ⟨ctx, uri, path, mode⟩ := con
  cases hc
  simp [process_rewrite_rules, count_pass, hl]

theorem process_first_rewrite (E : collaborators pcre cond_cache_t)
    (context : Option data_config) (con : connection)
    (pre post : List (rewrite_rule pcre)) (r : rewrite_rule pcre) (size : Nat)
    (hs : reaches_scan con)
    (hpre : ∀ q ∈ pre, (E.pcre_exec q.key con.uri).n = PCRE_ERROR_NOMATCH)
    (hr : 0 ≤ (E.pcre_exec r.key con.uri).n) (hv : r.value.length ≠ 0) :
    process_rewrite_rules E context con { ptr := pre ++ r :: post, size := size }
      = some (handler_t.HANDLER_COMEBACK,
          { count_pass con with
            uri := E.pcre_keyvalue_buffer_subst r.value (E.pcre_exec r.key con.uri).list
              (E.pcre_exec r.key con.uri).n
              (context.map (fun dc => E.cond_cache dc.context_ndx)),
            plugin_ctx := some (state_after_rewrite (count_pass con).plugin_ctx r.once) },
          []) := by
  rw [process_uri E context con _ hs, scan_rules_first E context con.uri _ pre post r hpre hr,
    scan_rules_rewrite E context con.uri _ r hr hv]

theorem count_pass_loops_below (con : connection) (hs : below_limit con) :
    ((count_pass con).plugin_ctx.getD handler_ctx_init).loops ≤ 100 ∧
    -2147483648 ≤ ((count_pass con).plugin_ctx.getD handler_ctx_init).loops ∧
    ((count_pass con).plugin_ctx.getD handler_ctx_init).state
      = rewrite_state.REWRITE_STATE_UNSET := by
  obtain ⟨ctx, uri, path, mode⟩ := con
  cases ctx with
  | none => simp [count_pass, handler_ctx_init]
  | some h =>
    obtain ⟨h1, h2, h3⟩ := hs h rfl
    have hw : int_wrap (h.loops + 1) = h.loops + 1 :=
      int_wrap_of_range _ (by omega) (by omega)
    simp only [count_pass, Option.map_some', Option.getD_some, hw]
    refine ⟨by omega, by omega, ?_⟩
    cases hst : h.state with
    | REWRITE_STATE_UNSET => rfl
    | REWRITE_STATE_FINISHED => exact absurd hst h3

theorem patch_entry_eq (dc : data_config) (s conf : plugin_config pcre) (du : data_unset) :
    patch_entry dc s conf du
      = { rewrite := if is_primary_key du.key then s.rewrite else conf.rewrite,
          rewrite_NF := if is_NF_key du.key then s.rewrite_NF else conf.rewrite_NF,
          context := if is_primary_key du.key then some dc else conf.context,
          context_NF := if is_NF_key du.key then some dc else conf.context_NF } := by
  by_cases h1 : du.key = "url.rewrite"
  · simp [patch_entry, is_primary_key, is_NF_key, h1]
  by_cases h2 : du.key = "url.rewrite-once"
  · simp [patch_entry, is_primary_key, is_NF_key, h2]
  by_cases h3 : du.key = "url.rewrite-repeat"
  · simp [patch_entry, is_primary_key, is_NF_key, h3]
  by_cases h4 : du.key = "url.rewrite-if-not-file"
  · simp [patch_entry, is_primary_key, is_NF_key, h4]
  by_cases h5 : du.key = "url.rewrite-repeat-if-not-file"
  · simp [patch_entry, is_primary_key, is_NF_key, h5]
  by_cases h6 : du.key = "url.rewrite-final"
  · simp [patch_entry, is_primary_key, is_NF_key, h6]
  simp [patch_entry, is_primary_key, is_NF_key, h1, h2, h3, h4, h5, h6]

theorem foldl_patch_entry (dc : data_config) (s : plugin_config pcre)
    (entries : List data_unset) :
    ∀ conf : plugin_config pcre, entries.foldl (patch_entry dc s) conf
      = { rewrite := if entries.any (fun du => is_primary_key du.key)
            then s.rewrite else conf.rewrite,
          rewrite_NF := if entries.any (fun du => is_NF_key du.key)
            then s.rewrite_NF else conf.rewrite_NF,
          context := if entries.any (fun du => is_primary_key du.key)
            then some dc else conf.context,
          context_NF := if entries.any (fun du => is_NF_key du.key)
            then some dc else conf.context_NF } := by
  induction entries with
  | nil => intro conf; simp
  | cons du rest ih =>
    intro conf
    rw [List.foldl_cons, ih, patch_entry_eq]
    cases hp : is_primary_key du.key <;> cases hn : is_NF_key du.key <;>
      cases hp1 : rest.any (fun du => is_primary_key du.key) <;>
      cases hn1 : rest.any (fun du => is_NF_key du.key) <;>
      simp [List.any_cons, hp, hn, hp1, hn1]

theorem foldl_patch_scope (E : collaborators pcre cond_cache_t) (con : connection)
    (rest : List (data_config × plugin_config pcre)) :
    ∀ conf : plugin_config pcre, rest.foldl (patch_scope E con) conf
      = { rewrite := match last_matching_scope E con is_primary_key rest with
            | some x => x.2.rewrite
            | none => conf.rewrite,
          rewrite_NF := match last_matching_scope E con is_NF_key rest with
            | some x => x.2.rewrite_NF
            | none => conf.rewrite_NF,
          context := match last_matching_scope E con is_primary_key rest with
            | some x => some x.1
            | none => conf.context,
          context_NF := match last_matching_scope E con is_NF_key rest with
            | some x => some x.1
            | none => conf.context_NF } := by
  induction rest using List.reverseRecOn with
  | nil => intro conf; simp [last_matching_scope]
  | append_singleton ys y ih =>
    intro conf
    rw [List.foldl_append, List.foldl_cons, List.foldl_nil, ih]
    unfold patch_scope last_matching_scope
    rw [foldl_patch_entry]
    simp only [List.filter_append, List.filter_cons, List.filter_nil]
    cases hc : E.config_check_cond con y.1 <;>
      cases hp : y.1.value.any (fun du => is_primary_key du.key) <;>
      cases hn : y.1.value.any (fun du => is_NF_key du.key) <;>
      simp [hc, hp, hn]

/-- When `config_insert_values_global` succeeds for every scope,
`mod_rewrite_set_defaults` returns `HANDLER_GO_ON` whatever `pcre_compile`
does: no status of `parse_config_entry` reaches the return code. -/
theorem set_defaults_loop_go_on (E : collaborators pcre cond_cache_t)
    (config_context : List data_config) :
    ∀ i : Nat, (∀ dc ∈ config_context, ∀ b, E.config_insert_values_global dc.value b = 0) →
      (set_defaults_loop E i config_context).1 = handler_t.HANDLER_GO_ON := by
  induction config_context with
  | nil => intro i _; rfl
  | cons dc rest ih =>
    intro i h
    have h0 : E.config_insert_values_global dc.value (i == 0) = 0 := h dc (by simp) _
    simp only [set_defaults_loop, h0, ne_eq, not_true_eq_false, if_false]
    exact ih (i + 1) (fun d hd b => h d (by simp [hd]) b)

/-- The spec's cascade example: of the scopes `[root, A, B, C]`, all defining
the primary kind, `A` does not match the request and `B` and `C` do; the
selection is the rule set and scope of `C`, and without `C` it is that of `B`. -/
theorem cascade_example :
    (mod_rewrite_patch_connection example_host_collaborators
        { plugin_ctx := none, uri := "/", physical_path := "", mode := 0 }
        [(⟨"global", "", "", 0, [⟨"url.rewrite-once", data_value.other⟩]⟩,
            ⟨some ⟨[⟨"^/r$", "/0", 1⟩], 4⟩, some ⟨[], 0⟩, none, none⟩),
         (⟨"HTTP[host]", "==", "a.example", 1, [⟨"url.rewrite-once", data_value.other⟩]⟩,
            ⟨some ⟨[⟨"^/a$", "/1", 1⟩], 4⟩, some ⟨[], 0⟩, none, none⟩),
         (⟨"HTTP[host]", "==", "example.org", 2, [⟨"url.rewrite-repeat", data_value.other⟩]⟩,
            ⟨some ⟨[⟨"^/b$", "/2", 0⟩], 4⟩, some ⟨[], 0⟩, none, none⟩),
         (⟨"HTTP[url]", "=~", "example.org", 3, [⟨"url.rewrite-once", data_value.other⟩]⟩,
            ⟨some ⟨[⟨"^/c$", "/3", 1⟩], 4⟩, some ⟨[], 0⟩, none, none⟩)])
      = some ⟨some ⟨[⟨"^/c$", "/3", 1⟩], 4⟩, some ⟨[], 0⟩,
          some ⟨"HTTP[url]", "=~", "example.org", 3, [⟨"url.rewrite-once", data_value.other⟩]⟩,
          none⟩ ∧
    (mod_rewrite_patch_connection example_host_collaborators
        { plugin_ctx := none, uri := "/", physical_path := "", mode := 0 }
        [(⟨"global", "", "", 0, [⟨"url.rewrite-once", data_value.other⟩]⟩,
            ⟨some ⟨[⟨"^/r$", "/0", 1⟩], 4⟩, some ⟨[], 0⟩, none, none⟩),
         (⟨"HTTP[host]", "==", "a.example", 1, [⟨"url.rewrite-once", data_value.other⟩]⟩,
            ⟨some ⟨[⟨"^/a$", "/1", 1⟩], 4⟩, some ⟨[], 0⟩, none, none⟩),
         (⟨"HTTP[host]", "==", "example.org", 2, [⟨"url.rewrite-repeat", data_value.other⟩]⟩,
            ⟨some ⟨[⟨"^/b$", "/2", 0⟩], 4⟩, some ⟨[], 0⟩, none, none⟩)])
      = some ⟨some ⟨[⟨"^/b$", "/2", 0⟩], 4⟩, some ⟨[], 0⟩,
          some ⟨"HTTP[host]", "==", "example.org", 2,
            [⟨"url.rewrite-repeat", data_value.other⟩]⟩,
          none⟩ := by
  refine ⟨by rfl, by rfl⟩

theorem digit_char_spec (N : Nat) (h : N < 10) :
    (digit_char N).isDigit = true ∧ (digit_char N).toNat - 48 = N := by
  interval_cases N <;> decide

theorem expand_template_lit (list : List String) (c : Char) (hc : c ≠ '$') (t : List Char) :
    expand_template list (c :: t) = c :: expand_template list t := by
  cases t with
  | nil => simp [expand_template]
  | cons d rest => simp [expand_template, hc]

theorem expand_template_backref (list : List String) (N : Nat) (h : N < 10) (t : List Char) :
    expand_template list ('$' :: digit_char N :: t)
      = (list.getD N "").data ++ expand_template list t := by
  obtain ⟨h1, h2⟩ := digit_char_spec N h
  simp [expand_template, h1, h2]

theorem expand_template_parts (list : List String) (parts : List template_part)
    (hp : ∀ p ∈ parts, part_ok p = true) :
    expand_template list (template_of_parts parts) = expansion_of_parts list parts := by
  induction parts with
  | nil => simp [template_of_parts, expansion_of_parts, expand_template]
  | cons p ps ih =>
    have ih1 := ih (fun q hq => hp q (by simp [hq]))
    have hp0 : part_ok p = true := hp p (by simp)
    cases p with
    | lit c =>
      have hc : c ≠ '$' := by simpa [part_ok] using hp0
      simp only [template_of_parts, expansion_of_parts]
      rw [expand_template_lit list c hc, ih1]
    | backref N =>
      have hN : N < 10 := by simpa [part_ok] using hp0
      simp only [template_of_parts, expansion_of_parts]
      rw [expand_template_backref list N hN, ih1]

theorem scan_rules_fault (E : collaborators pcre cond_cache_t) (context : Option data_config)
    (match_buf : String) (con : connection) (r : rewrite_rule pcre)
    (post : List (rewrite_rule pcre))
    (h1 : (E.pcre_exec r.key match_buf).n < 0)
    (h2 : (E.pcre_exec r.key match_buf).n ≠ PCRE_ERROR_NOMATCH) :
    scan_rules E context match_buf con (r :: post)
      = (handler_t.HANDLER_ERROR, con, [log_entry.exec_error (E.pcre_exec r.key match_buf).n]) := by
  simp only [scan_rules, h1, h2, if_true, ne_eq, not_false_eq_true]

theorem scan_rules_error_iff (E : collaborators pcre cond_cache_t)
    (context : Option data_config) (match_buf : String) (con : connection)
    (rules : List (rewrite_rule pcre)) :
    (scan_rules E context match_buf con rules).1 = handler_t.HANDLER_ERROR ↔
      ∃ pre r post, rules = pre ++ r :: post ∧
        (∀ q ∈ pre, (E.pcre_exec q.key match_buf).n < 0) ∧
        (E.pcre_exec r.key match_buf).n < 0 ∧
        (E.pcre_exec r.key match_buf).n ≠ PCRE_ERROR_NOMATCH := by
  induction rules with
  | nil =>
    constructor
    · intro h; simp [scan_rules] at h
    · rintro ⟨pre, r, post, h, _⟩; simp at h
  | cons q rest ih =>
    by_cases h1 : (E.pcre_exec q.key match_buf).n < 0
    · by_cases h2 : (E.pcre_exec q.key match_buf).n ≠ PCRE_ERROR_NOMATCH
      · rw [scan_rules_fault E context match_buf con q rest h1 h2]
        exact ⟨fun _ => ⟨[], q, rest, rfl, by simp, h1, h2⟩, fun _ => rfl⟩
      · have e : scan_rules E context match_buf con (q :: rest)
            = scan_rules E context match_buf con rest := by
          simp only [scan_rules, h1, h2, if_true, if_false]
        rw [e, ih]
        constructor
        · rintro ⟨pre, r, post, hrest, hpre, hr1, hr2⟩
          refine ⟨q :: pre, r, post, by simp [hrest], ?_, hr1, hr2⟩
          intro x hx
          rcases List.mem_cons.mp hx with hx | hx
          · rw [hx]; exact h1
          · exact hpre x hx
        · rintro ⟨pre, r, post, hrest, hpre, hr1, hr2⟩
          cases pre with
          | nil =>
            simp only [List.nil_append, List.cons.injEq] at hrest
            rw [← hrest.1] at hr2
            exact absurd hr2 h2
          | cons p pre1 =>
            simp only [List.cons_append, List.cons.injEq] at hrest
            exact ⟨pre1, r, post, hrest.2, fun x hx => hpre x (by simp [hx]), hr1, hr2⟩
    · constructor
      · intro h
        rw [scan_rules_head E context match_buf con q rest (by omega)] at h
        by_cases h3 : q.value.length = 0
        · simp [scan_rules, h1, h3] at h
        · rw [scan_rules_rewrite E context match_buf con q (by omega) h3] at h
          simp at h
      · rintro ⟨pre, r, post, hrest, hpre, hr1, hr2⟩
        cases pre with
        | nil =>
          simp only [List.nil_append, List.cons.injEq] at hrest
          rw [← hrest.1] at hr1
          exact absurd hr1 h1
        | cons p pre1 =>
          simp only [List.cons_append, List.cons.injEq] at hrest
          have := hpre p (by simp)
          rw [← hrest.1] at this
          exact absurd this h1

theorem scan_rules_no_match (E : collaborators pcre cond_cache_t)
    (context : Option data_config) (match_buf : String) (con : connection)
    (rules : List (rewrite_rule pcre))
    (h : ∀ q ∈ rules, (E.pcre_exec q.key match_buf).n = PCRE_ERROR_NOMATCH) :
    scan_rules E context match_buf con rules = (handler_t.HANDLER_GO_ON, con, []) := by
  have := scan_rules_skip E context match_buf con rules [] h
  rw [List.append_nil] at this
  rw [this]
  rfl

theorem invoke_times_over_limit (E : collaborators pcre cond_cache_t) (dc : data_config)
    (kvb : rewrite_rule_buffer pcre) (k : Nat) :
    ∀ (con : connection) (st : rewrite_state) (loops : Int),
      con.plugin_ctx = some ⟨st, loops⟩ → 100 < loops → loops + k < 2147483648 →
      invoke_times E (some dc) kvb k con
        = some { con with plugin_ctx := some ⟨st, loops + k⟩ } := by
  induction k with
  | zero =>
    intro con st loops hc _ _
    obtain ⟨ctx, uri, path, mode⟩ := con
    cases hc
    simp [invoke_times]
  | succ k ih =>
    intro con st loops hc hl hr
    have hw : int_wrap (loops + 1) = loops + 1 :=
      int_wrap_of_range _ (by omega) (by push_cast at hr; omega)
    simp only [invoke_times, process_over_limit E dc con kvb ⟨st, loops⟩ hc hl]
    rw [ih (count_pass con) st (loops + 1) (by simp [count_pass, hc, hw]) (by omega)
      (by push_cast at hr; omega)]
    obtain ⟨ctx, uri, path, mode⟩ := con
    simp only [count_pass, Option.some.injEq, connection.mk.injEq, handler_ctx.mk.injEq,
      true_and, and_true]
    push_cast
    omega

theorem scan_rules_view (E : collaborators pcre cond_cache_t) (context : Option data_config)
    (match_buf : String) (c c1 : connection) (rules : List (rewrite_rule pcre))
    (hctx : c.plugin_ctx = c1.plugin_ctx) (huri : c.uri = c1.uri) :
    outcome_view (scan_rules E context match_buf c rules)
      = outcome_view (scan_rules E context match_buf c1 rules) := by
  induction rules with
  | nil => simp [scan_rules, outcome_view, hctx, huri]
  | cons q rest ih =>
    by_cases h1 : (E.pcre_exec q.key match_buf).n < 0
    · by_cases h2 : (E.pcre_exec q.key match_buf).n ≠ PCRE_ERROR_NOMATCH
      · rw [scan_rules_fault E context match_buf c q rest h1 h2,
          scan_rules_fault E context match_buf c1 q rest h1 h2]
        simp [outcome_view, hctx, huri]
      · have e : ∀ x : connection, scan_rules E context match_buf x (q :: rest)
            = scan_rules E context match_buf x rest := by
          intro x
          simp only [scan_rules, h1, h2, if_true, if_false]
        rw [e, e]
        exact ih
    · rw [scan_rules_head E context match_buf c q rest (by omega),
        scan_rules_head E context match_buf c1 q rest (by omega)]
      by_cases h3 : q.value.length = 0
      · simp [scan_rules, h1, h3, outcome_view, hctx, huri]
      · rw [scan_rules_rewrite E context match_buf c q (by omega) h3,
          scan_rules_rewrite E context match_buf c1 q (by omega) h3]
        simp [outcome_view, hctx]

theorem scan_rules_path (E : collaborators pcre cond_cache_t) (context : Option data_config)
    (match_buf : String) (c : connection) (rules : List (rewrite_rule pcre)) :
    (scan_rules E context match_buf c rules).2.1.physical_path = c.physical_path := by
  induction rules with
  | nil => rfl
  | cons q rest ih =>
    by_cases h1 : (E.pcre_exec q.key match_buf).n < 0
    · by_cases h2 : (E.pcre_exec q.key match_buf).n ≠ PCRE_ERROR_NOMATCH
      · rw [scan_rules_fault E context match_buf c q rest h1 h2]
      · have e : scan_rules E context match_buf c (q :: rest)
            = scan_rules E context match_buf c rest := by
          simp only [scan_rules, h1, h2, if_true, if_false]
        rw [e]
        exact ih
    · rw [scan_rules_head E context match_buf c q rest (by omega)]
      by_cases h3 : q.value.length = 0
      · simp [scan_rules, h1, h3]
      · rw [scan_rules_rewrite E context match_buf c q (by omega) h3]

theorem process_path (E : collaborators pcre cond_cache_t) (context : Option data_config)
    (con : connection) (kvb : rewrite_rule_buffer pcre) (o : outcome)
    (h : process_rewrite_rules E context con kvb = some o) :
    o.2.1.physical_path = con.physical_path := by
  obtain ⟨ctx, uri, path, mode⟩ := con
  cases ctx with
  | none =>
    simp only [process_rewrite_rules, Option.some.injEq] at h
    rw [← h, scan_rules_path]
  | some hc =>
    simp only [process_rewrite_rules] at h
    split_ifs at h with h1 h2
    · cases context with
      | none => simp at h
      | some dc =>
        simp only [Option.some.injEq] at h
        rw [← h]
    · simp only [Option.some.injEq] at h
      rw [← h]
    · simp only [Option.some.injEq] at h
      rw [← h, scan_rules_path]

theorem patch_connection_eq (E : collaborators pcre cond_cache_t) (con : connection)
    (root : data_config × plugin_config pcre)
    (rest : List (data_config × plugin_config pcre)) :
    mod_rewrite_patch_connection E con (root :: rest)
      = some (effective_selection E con root.2 rest) := by
  simp only [mod_rewrite_patch_connection, foldl_patch_scope, effective_selection]
  congr 2 <;> cases last_matching_scope E con _ rest <;> rfl

theorem append_ptr (E : collaborators pcre cond_cache_t) (kvb : rewrite_rule_buffer pcre)
    (key value : String) (once : Int) (hw : buffer_wf kvb) :
    buffer_wf (rewrite_rule_buffer_append E kvb (some key) value once).2 ∧
    (rewrite_rule_buffer_append E kvb (some key) value once).2.ptr
      = kvb.ptr ++ (match E.pcre_compile key with
          | none => []
          | some k => [{ key := k, value := value, once := once }]) ∧
    ((rewrite_rule_buffer_append E kvb (some key) value once).1 ≠ 0
      ↔ E.pcre_compile key = none) := by
  unfold rewrite_rule_buffer_append buffer_wf
  by_cases h0 : kvb.size = 0
  · have hp := hw h0
    cases hk : E.pcre_compile key <;> simp [h0, hp, hk]
  · by_cases h1 : kvb.ptr.length = kvb.size
    · cases hk : E.pcre_compile key <;> simp [h0, h1, hk]
    · cases hk : E.pcre_compile key <;> simp [h0, h1, hk]

theorem parse_config_loop_ptr (E : collaborators pcre cond_cache_t) (once : Int)
    (l : List (String × String)) :
    ∀ kvb : rewrite_rule_buffer pcre, buffer_wf kvb →
      buffer_wf (parse_config_loop E once kvb l).2.1 ∧
      (parse_config_loop E once kvb l).2.1.ptr = kvb.ptr ++ compiled_rules E once l := by
  induction l with
  | nil => intro kvb hw; exact ⟨hw, by simp [parse_config_loop, compiled_rules]⟩
  | cons ds rest ih =>
    intro kvb hw
    obtain ⟨hw1, hp1, hs1⟩ := append_ptr E kvb ds.1 ds.2 once hw
    simp only [parse_config_loop, compiled_rules]
    cases hk : E.pcre_compile ds.1 with
    | none =>
      have hne : (rewrite_rule_buffer_append E kvb (some ds.1) ds.2 once).1 ≠ 0 := hs1.mpr hk
      rw [hk] at hp1
      simp only [hne, ne_eq, not_false_eq_true, if_true]
      exact ⟨hw1, hp1⟩
    | some k =>
      have he : ¬ (rewrite_rule_buffer_append E kvb (some ds.1) ds.2 once).1 ≠ 0 := by
        rw [hs1, hk]; simp
      rw [hk] at hp1
      simp only [he, if_false]
      obtain ⟨hw2, hp2⟩ := ih _ hw1
      exact ⟨hw2, by rw [hp2, hp1]; simp⟩

theorem parse_config_entry_ptr (E : collaborators pcre cond_cache_t) (ca : List data_unset)
    (kvb : rewrite_rule_buffer pcre) (option : String) (once : Int) (hw : buffer_wf kvb) :
    buffer_wf (parse_config_entry E ca kvb option once).2.1 ∧
    (parse_config_entry E ca kvb option once).2.1.ptr
      = kvb.ptr ++ directive_rules E ca option once := by
  unfold parse_config_entry directive_rules
  cases hfind : ca.find? (fun du => du.key = option) with
  | none => exact ⟨hw, by simp⟩
  | some du =>
    simp only
    cases hv : du.value with
    | other => simp only [hv]; exact ⟨hw, by simp⟩
    | kvlist l => simp only [hv]; exact parse_config_loop_ptr E once l kvb hw

theorem set_defaults_scope_rules (E : collaborators pcre cond_cache_t) (config : data_config) :
    ∃ kvb nf, (set_defaults_scope E config).1.rewrite = some kvb ∧
      (set_defaults_scope E config).1.rewrite_NF = some nf ∧
      kvb.ptr = directive_rules E config.value "url.rewrite-once" 1
        ++ directive_rules E config.value "url.rewrite-final" 1
        ++ directive_rules E config.value "url.rewrite" 1
        ++ directive_rules E config.value "url.rewrite-repeat" 0 ∧
      nf.ptr = directive_rules E config.value "url.rewrite-if-not-file" 1
        ++ directive_rules E config.value "url.rewrite-repeat-if-not-file" 0 := by
  have hinit : buffer_wf (rewrite_rule_buffer_init : rewrite_rule_buffer pcre) := fun _ => rfl
  obtain ⟨w1, p1⟩ := parse_config_entry_ptr E config.value rewrite_rule_buffer_init
    "url.rewrite-once" 1 hinit
  obtain ⟨w2, p2⟩ := parse_config_entry_ptr E config.value _ "url.rewrite-final" 1 w1
  obtain ⟨w3, p3⟩ := parse_config_entry_ptr E config.value rewrite_rule_buffer_init
    "url.rewrite-if-not-file" 1 hinit
  obtain ⟨_, p4⟩ := parse_config_entry_ptr E config.value _
    "url.rewrite-repeat-if-not-file" 0 w3
  obtain ⟨w5, p5⟩ := parse_config_entry_ptr E config.value _ "url.rewrite" 1 w2
  obtain ⟨_, p6⟩ := parse_config_entry_ptr E config.value _ "url.rewrite-repeat" 0 w5
  refine ⟨_, _, rfl, rfl, ?_, ?_⟩
  · rw [p6, p5, p2, p1]; simp [rewrite_rule_buffer_init]
  · rw [p4, p3]; simp [rewrite_rule_buffer_init]

theorem set_defaults_loop_storage (E : collaborators pcre cond_cache_t)
    (config_context : List data_config) :
    ∀ i : Nat, (∀ dc ∈ config_context, ∀ b, E.config_insert_values_global dc.value b = 0) →
      (set_defaults_loop E i config_context).2.1
        = config_context.map (fun c => some (set_defaults_scope E c).1) := by
  induction config_context with
  | nil => intro i _; rfl
  | cons dc rest ih =>
    intro i h
    have h0 : E.config_insert_values_global dc.value (i == 0) = 0 := h dc (by simp) _
    simp only [set_defaults_loop, h0, ne_eq, not_true_eq_false, if_false, List.map_cons]
    rw [ih (i + 1) (fun d hd b => h d (by simp [hd]) b)]

theorem compiled_rules_once (E : collaborators pcre cond_cache_t) (once : Int)
    (l : List (String × String)) :
    ∀ r ∈ compiled_rules E once l, r.once = once := by
  induction l with
  | nil => intro r hr; simp [compiled_rules] at hr
  | cons ds rest ih =>
    intro r hr
    simp only [compiled_rules] at hr
    cases hk : E.pcre_compile ds.1 with
    | none => simp [hk] at hr
    | some k =>
      simp only [hk, List.mem_cons] at hr
      rcases hr with hr | hr
      · rw [hr]
      · exact ih r hr

theorem directive_rules_once (E : collaborators pcre cond_cache_t) (ca : List data_unset)
    (option : String) (once : Int) :
    ∀ r ∈ directive_rules E ca option once, r.once = once := by
  intro r hr
  unfold directive_rules at hr
  cases hfind : ca.find? (fun du => du.key = option) with
  | none => simp [hfind] at hr
  | some du =>
    cases hv : du.value with
    | other => simp [hfind, hv] at hr
    | kvlist l =>
      simp only [hfind, hv] at hr
      exact compiled_rules_once E once l r hr

theorem physical_switch_eq (E : collaborators pcre cond_cache_t)
    (context : Option data_config) (con : connection) (kvb : rewrite_rule_buffer pcre) :
    physical_switch (process_rewrite_rules E context con kvb)
      = (process_rewrite_rules E context con kvb).map (fun o =>
          (o.1,
            { o.2.1 with
              physical_path :=
                if o.1 = handler_t.HANDLER_COMEBACK then "" else con.physical_path },
            o.2.2)) := by
  cases hp : process_rewrite_rules E context con kvb with
  | none => rfl
  | some o =>
    have hpath := process_path E context con kvb o hp
    obtain ⟨sig, ⟨ctx, uri, path, mode⟩, l⟩ := o
    simp only at hpath
    cases sig <;> simp [physical_switch, hpath]

end lemmas

/-! ## Theorems -/

section claims

variable {pcre cond_cache_t : Type}

/-- C1: first match wins. When every rule before `r` returns
`PCRE_ERROR_NOMATCH` on the request URI and `r` matches, the result of
`process_rewrite_rules` (return code, new URI, new request state, log) on
`pre ++ r :: post` is its result on the one-rule set `[r]`, whatever the request
state; so it is the same for every other tail `post1` after `r`. -/
theorem first_match_wins (E : collaborators pcre cond_cache_t) (context : Option data_config)
    (con : connection) (pre post : List (rewrite_rule pcre)) (r : rewrite_rule pcre)
    (size : Nat)
    (hpre : ∀ q ∈ pre, (E.pcre_exec q.key con.uri).n = PCRE_ERROR_NOMATCH)
    (hr : 0 ≤ (E.pcre_exec r.key con.uri).n) :
    (∀ size1, process_rewrite_rules E context con { ptr := pre ++ r :: post, size := size }
        = process_rewrite_rules E context con { ptr := [r], size := size1 }) ∧
    (∀ post1 size1, process_rewrite_rules E context con { ptr := pre ++ r :: post, size := size }
        = process_rewrite_rules E context con { ptr := pre ++ r :: post1, size := size1 }) := by
  have key : ∀ (p1 : List (rewrite_rule pcre)) (s1 s2 : Nat),
      process_rewrite_rules E context con { ptr := pre ++ r :: p1, size := s1 }
        = process_rewrite_rules E context con { ptr := [r], size := s2 } := by
    intro p1 s1 s2
    unfold process_rewrite_rules
    cases con.plugin_ctx with
    | none => simp only [scan_rules_first E context con.uri con pre p1 r hpre hr]
    | some h => simp only [scan_rules_first E context con.uri _ pre p1 r hpre hr]
  exact ⟨fun s1 => key post size s1, fun p1 s1 => (key post size 0).trans (key p1 s1 0).symm⟩

/-- Witness of C1: on `/b` the rule for `^/a$` does not match, the rule for
`^/b$` does, and a later rule that would match as well is never reached. -/
theorem first_match_wins_witness :
    (∀ size1, process_rewrite_rules example_collaborators none
        { plugin_ctx := none, uri := "/b", physical_path := "", mode := 0 }
        { ptr := [⟨"^/a$", "/x", 1⟩] ++ ⟨"^/b$", "/c", 0⟩ :: [⟨"^/b", "/z", 1⟩], size := 4 }
      = process_rewrite_rules example_collaborators none
        { plugin_ctx := none, uri := "/b", physical_path := "", mode := 0 }
        { ptr := [⟨"^/b$", "/c", 0⟩], size := size1 }) ∧
    (∀ post1 size1, process_rewrite_rules example_collaborators none
        { plugin_ctx := none, uri := "/b", physical_path := "", mode := 0 }
        { ptr := [⟨"^/a$", "/x", 1⟩] ++ ⟨"^/b$", "/c", 0⟩ :: [⟨"^/b", "/z", 1⟩], size := 4 }
      = process_rewrite_rules example_collaborators none
        { plugin_ctx := none, uri := "/b", physical_path := "", mode := 0 }
        { ptr := [⟨"^/a$", "/x", 1⟩] ++ ⟨"^/b$", "/c", 0⟩ :: post1, size := size1 }) :=
  first_match_wins example_collaborators none
    { plugin_ctx := none, uri := "/b", physical_path := "", mode := 0 }
    [⟨"^/a$", "/x", 1⟩] [⟨"^/b", "/z", 1⟩] ⟨"^/b$", "/c", 0⟩ 4 (by decide) (by decide)

/-- C7: an empty template is a stop sentinel. From a request state that
reaches the scan, when every rule before `r` returns `PCRE_ERROR_NOMATCH`, `r`
matches and its template is empty, `process_rewrite_rules` returns
`HANDLER_GO_ON` and logs nothing; the connection differs from the one before
only by the counter increment of an existing request state, so the URI is
unchanged, an absent request state stays absent and the finished flag is as
before. The rules `post` after `r` do not occur in the result. -/
theorem empty_template_stops (E : collaborators pcre cond_cache_t)
    (context : Option data_config) (con : connection)
    (pre post : List (rewrite_rule pcre)) (r : rewrite_rule pcre) (size : Nat)
    (hs : reaches_scan con)
    (hpre : ∀ q ∈ pre, (E.pcre_exec q.key con.uri).n = PCRE_ERROR_NOMATCH)
    (hr : 0 ≤ (E.pcre_exec r.key con.uri).n)
    (hv : r.value.length = 0) :
    process_rewrite_rules E context con { ptr := pre ++ r :: post, size := size }
        = some (handler_t.HANDLER_GO_ON, count_pass con, []) ∧
      (count_pass con).uri = con.uri ∧
      (count_pass con).physical_path = con.physical_path ∧
      (count_pass con).plugin_ctx.map (fun h => h.state)
        = con.plugin_ctx.map (fun h => h.state) := by
  have hn : ¬ (E.pcre_exec r.key con.uri).n < 0 := by omega
  refine ⟨?_, rfl, rfl, ?_⟩
  · rw [process_uri E context con _ hs, scan_rules_first E context con.uri _ pre post r hpre hr]
    simp [scan_rules, hn, hv]
  · cases hc : con.plugin_ctx <;> simp [count_pass, hc]

/-- Witness of C7: `^/a$` with an empty template stops the scan of `/a` before
the rule that would rewrite it to `/z`, with and without a request state. -/
theorem empty_template_stops_witness :
    process_rewrite_rules example_collaborators none
        { plugin_ctx := some ⟨rewrite_state.REWRITE_STATE_UNSET, 3⟩, uri := "/a",
          physical_path := "/srv/a", mode := 0 }
        { ptr := [⟨"^/b$", "/x", 1⟩] ++ ⟨"^/a$", "", 1⟩ :: [⟨"^/a", "/z", 1⟩], size := 4 }
      = some (handler_t.HANDLER_GO_ON,
          { plugin_ctx := some ⟨rewrite_state.REWRITE_STATE_UNSET, 4⟩, uri := "/a",
            physical_path := "/srv/a", mode := 0 }, []) ∧
    process_rewrite_rules example_collaborators none
        { plugin_ctx := none, uri := "/a", physical_path := "/srv/a", mode := 0 }
        { ptr := [⟨"^/b$", "/x", 1⟩] ++ ⟨"^/a$", "", 1⟩ :: [⟨"^/a", "/z", 1⟩], size := 4 }
      = some (handler_t.HANDLER_GO_ON,
          { plugin_ctx := none, uri := "/a", physical_path := "/srv/a", mode := 0 }, []) :=
  ⟨(empty_template_stops example_collaborators none
      { plugin_ctx := some ⟨rewrite_state.REWRITE_STATE_UNSET, 3⟩, uri := "/a",
        physical_path := "/srv/a", mode := 0 }
      [⟨"^/b$", "/x", 1⟩] [⟨"^/a", "/z", 1⟩] ⟨"^/a$", "", 1⟩ 4
      (by intro h hh; cases hh; decide) (by decide) (by decide) (by decide)).1,
   (empty_template_stops example_collaborators none
      { plugin_ctx := none, uri := "/a", physical_path := "/srv/a", mode := 0 }
      [⟨"^/b$", "/x", 1⟩] [⟨"^/a", "/z", 1⟩] ⟨"^/a$", "", 1⟩ 4
      (by intro h hh; cases hh) (by decide) (by decide) (by decide)).1⟩

/-- C3, amended: a finished request passes through while the counter is at
most 100. From a request state with `state = REWRITE_STATE_FINISHED` and an
`int` counter `loops`, for every `k` with `loops + k ≤ 100` the first `k`
invocations leave the connection unchanged but for the counter, now
`loops + k`, and the next invocation returns `HANDLER_GO_ON`, logs nothing and
again changes only the counter: the URI is never touched. -/
theorem finished_passes_through (E : collaborators pcre cond_cache_t)
    (context : Option data_config) (kvb : rewrite_rule_buffer pcre) (k : Nat)
    (con : connection) (loops : Int)
    (hc : con.plugin_ctx = some ⟨rewrite_state.REWRITE_STATE_FINISHED, loops⟩)
    (hlo : -2147483648 ≤ loops) (hk : loops + k ≤ 100) :
    invoke_times E context kvb k con
        = some { con with
            plugin_ctx := some ⟨rewrite_state.REWRITE_STATE_FINISHED, loops + k⟩ } ∧
      process_rewrite_rules E context
          { con with plugin_ctx := some ⟨rewrite_state.REWRITE_STATE_FINISHED, loops + k⟩ } kvb
        = some (handler_t.HANDLER_GO_ON,
            { con with
              plugin_ctx := some ⟨rewrite_state.REWRITE_STATE_FINISHED, loops + k + 1⟩ },
            []) := by
  have step : ∀ (c : connection) (l : Int), -2147483648 ≤ l → l ≤ 100 →
      process_rewrite_rules E context
          { c with plugin_ctx := some ⟨rewrite_state.REWRITE_STATE_FINISHED, l⟩ } kvb
        = some (handler_t.HANDLER_GO_ON,
            { c with plugin_ctx := some ⟨rewrite_state.REWRITE_STATE_FINISHED, l + 1⟩ },
            []) := by
    intro c l h1 h2
    rw [process_finished E context _ kvb ⟨rewrite_state.REWRITE_STATE_FINISHED, l⟩ rfl h2 rfl]
    simp [count_pass, int_wrap_of_range (l + 1) (by omega) (by omega)]
  refine ⟨?_, step con (loops + k) (by omega) hk⟩
  obtain ⟨ctx, uri, path, mode⟩ := con
  cases hc
  induction k generalizing loops with
  | zero => simp [invoke_times]
  | succ k ih =>
    have h1 := step ⟨none, uri, path, mode⟩ loops hlo (by omega)
    simp only [invoke_times]
    simp only at h1
    rw [h1]
    have h2 := ih (loops + 1) (by omega) (by push_cast at hk; omega)
    simp only at h2 ⊢
    rw [h2]
    push_cast
    have e : loops + 1 + (k : Int) = loops + ((k : Int) + 1) := by omega
    rw [e]

/-- Witness of C3 (amended): after a once-rule has finished the request with
counter 0, the first 100 further invocations only count, and the 101st still
returns `HANDLER_GO_ON` with the URI `/b` unchanged. -/
theorem finished_passes_through_witness :
    invoke_times example_collaborators (some example_scope)
        { ptr := [⟨"^/a$", "/b", 1⟩], size := 4 } 100
        { plugin_ctx := some ⟨rewrite_state.REWRITE_STATE_FINISHED, 0⟩, uri := "/b",
          physical_path := "", mode := 0 }
      = some { plugin_ctx := some ⟨rewrite_state.REWRITE_STATE_FINISHED, 100⟩, uri := "/b",
               physical_path := "", mode := 0 } ∧
    process_rewrite_rules example_collaborators (some example_scope)
        { plugin_ctx := some ⟨rewrite_state.REWRITE_STATE_FINISHED, 100⟩, uri := "/b",
          physical_path := "", mode := 0 }
        { ptr := [⟨"^/a$", "/b", 1⟩], size := 4 }
      = some (handler_t.HANDLER_GO_ON,
          { plugin_ctx := some ⟨rewrite_state.REWRITE_STATE_FINISHED, 101⟩, uri := "/b",
            physical_path := "", mode := 0 }, []) :=
  finished_passes_through example_collaborators (some example_scope)
    { ptr := [⟨"^/a$", "/b", 1⟩], size := 4 } 100
    { plugin_ctx := some ⟨rewrite_state.REWRITE_STATE_FINISHED, 0⟩, uri := "/b",
      physical_path := "", mode := 0 } 0 rfl (by decide) (by decide)

/-- C3 as stated fails: a once-rule rewrites `/a` to `/b` and finishes the
fresh request with counter 0; the next 101 invocations pass through and leave
the counter at 101; the invocation after those finds `loops > 100` before it
looks at the finished flag and returns `HANDLER_ERROR`, not `HANDLER_GO_ON`. -/
theorem finished_not_pass_through_after_101 :
    process_rewrite_rules example_collaborators (some example_scope)
        { plugin_ctx := none, uri := "/a", physical_path := "", mode := 0 }
        { ptr := [⟨"^/a$", "/b", 1⟩], size := 4 }
      = some (handler_t.HANDLER_COMEBACK,
          { plugin_ctx := some ⟨rewrite_state.REWRITE_STATE_FINISHED, 0⟩, uri := "/b",
            physical_path := "", mode := 0 }, []) ∧
    invoke_times example_collaborators (some example_scope)
        { ptr := [⟨"^/a$", "/b", 1⟩], size := 4 } 101
        { plugin_ctx := some ⟨rewrite_state.REWRITE_STATE_FINISHED, 0⟩, uri := "/b",
          physical_path := "", mode := 0 }
      = some { plugin_ctx := some ⟨rewrite_state.REWRITE_STATE_FINISHED, 101⟩, uri := "/b",
               physical_path := "", mode := 0 } ∧
    process_rewrite_rules example_collaborators (some example_scope)
        { plugin_ctx := some ⟨rewrite_state.REWRITE_STATE_FINISHED, 101⟩, uri := "/b",
          physical_path := "", mode := 0 }
        { ptr := [⟨"^/a$", "/b", 1⟩], size := 4 }
      = some (handler_t.HANDLER_ERROR,
          { plugin_ctx := some ⟨rewrite_state.REWRITE_STATE_FINISHED, 102⟩, uri := "/b",
            physical_path := "", mode := 0 },
          [log_entry.endless_loop "HTTP[host]" "==" "example.org"]) := by
  refine ⟨by decide, by decide, by decide⟩

/-- C5, amended: once-rules are one-shot. From a request state that is absent,
or not finished with an `int` counter below 100, when every rule before `r`
returns `PCRE_ERROR_NOMATCH`, `r` matches, has a non-empty template and
`once ≠ 0`: `process_rewrite_rules` returns `HANDLER_COMEBACK`, the new URI is
the expansion of the template of `r`, and the request state is finished; the
invocation that follows, with any rule set, returns `HANDLER_GO_ON` and leaves
the URI and the physical path as they were. -/
theorem once_rule_is_one_shot (E : collaborators pcre cond_cache_t)
    (context : Option data_config) (con : connection)
    (pre post : List (rewrite_rule pcre)) (r : rewrite_rule pcre) (size : Nat)
    (hs : below_limit con)
    (hpre : ∀ q ∈ pre, (E.pcre_exec q.key con.uri).n = PCRE_ERROR_NOMATCH)
    (hr : 0 ≤ (E.pcre_exec r.key con.uri).n) (hv : r.value.length ≠ 0)
    (ho : r.once ≠ 0) :
    ∃ con1, process_rewrite_rules E context con { ptr := pre ++ r :: post, size := size }
        = some (handler_t.HANDLER_COMEBACK, con1, []) ∧
      con1.uri = E.pcre_keyvalue_buffer_subst r.value (E.pcre_exec r.key con.uri).list
        (E.pcre_exec r.key con.uri).n (context.map (fun dc => E.cond_cache dc.context_ndx)) ∧
      con1.plugin_ctx.map (fun h => h.state) = some rewrite_state.REWRITE_STATE_FINISHED ∧
      ∀ (context1 : Option data_config) (kvb1 : rewrite_rule_buffer pcre),
        ∃ con2, process_rewrite_rules E context1 con1 kvb1
            = some (handler_t.HANDLER_GO_ON, con2, []) ∧
          con2.uri = con1.uri ∧ con2.physical_path = con1.physical_path := by
  obtain ⟨hl, _, _⟩ := count_pass_loops_below con hs
  refine ⟨_, process_first_rewrite E context con pre post r size
    (below_limit_reaches_scan con hs) hpre hr hv, rfl, ?_, ?_⟩
  · simp [state_after_rewrite, ho]
  · intro context1 kvb1
    refine ⟨_, process_finished E context1 _ kvb1
      (state_after_rewrite (count_pass con).plugin_ctx r.once) rfl ?_ ?_, rfl, rfl⟩
    · simpa [state_after_rewrite, ho] using hl
    · simp [state_after_rewrite, ho]

/-- Witness of C5 (amended): the rule set `[^/a$ -> /b, once]` on the fresh
request `/a` returns `HANDLER_COMEBACK` with URI `/b` and a finished state, and
the following invocation returns `HANDLER_GO_ON` with the URI still `/b`. -/
theorem once_rule_is_one_shot_witness :
    ∃ con1, process_rewrite_rules example_collaborators none
        { plugin_ctx := none, uri := "/a", physical_path := "", mode := 0 }
        { ptr := [] ++ ⟨"^/a$", "/b", 1⟩ :: [], size := 4 }
        = some (handler_t.HANDLER_COMEBACK, con1, []) ∧
      con1.uri = "/b" ∧
      con1.plugin_ctx.map (fun h => h.state) = some rewrite_state.REWRITE_STATE_FINISHED ∧
      ∀ (context1 : Option data_config) (kvb1 : rewrite_rule_buffer String),
        ∃ con2, process_rewrite_rules example_collaborators context1 con1 kvb1
            = some (handler_t.HANDLER_GO_ON, con2, []) ∧
          con2.uri = con1.uri ∧ con2.physical_path = con1.physical_path :=
  once_rule_is_one_shot example_collaborators none
    { plugin_ctx := none, uri := "/a", physical_path := "", mode := 0 }
    [] [] ⟨"^/a$", "/b", 1⟩ 4 (by intro h hh; cases hh) (by decide) (by decide) (by decide)
    (by decide)

/-- C5 as stated fails: the request state is not finished and its counter 100
is not above the limit; the once-rule `^/a$ -> /b` matches `/a` and the
invocation returns `HANDLER_COMEBACK` with a finished state, whose counter is
now 101; the invocation that follows returns `HANDLER_ERROR`, not
`HANDLER_GO_ON`. -/
theorem once_rule_at_counter_100_then_error :
    process_rewrite_rules example_collaborators (some example_scope)
        { plugin_ctx := some ⟨rewrite_state.REWRITE_STATE_UNSET, 100⟩, uri := "/a",
          physical_path := "", mode := 0 }
        { ptr := [⟨"^/a$", "/b", 1⟩], size := 4 }
      = some (handler_t.HANDLER_COMEBACK,
          { plugin_ctx := some ⟨rewrite_state.REWRITE_STATE_FINISHED, 101⟩, uri := "/b",
            physical_path := "", mode := 0 }, []) ∧
    process_rewrite_rules example_collaborators (some example_scope)
        { plugin_ctx := some ⟨rewrite_state.REWRITE_STATE_FINISHED, 101⟩, uri := "/b",
          physical_path := "", mode := 0 }
        { ptr := [⟨"^/a$", "/b", 1⟩], size := 4 }
      = some (handler_t.HANDLER_ERROR,
          { plugin_ctx := some ⟨rewrite_state.REWRITE_STATE_FINISHED, 102⟩, uri := "/b",
            physical_path := "", mode := 0 },
          [log_entry.endless_loop "HTTP[host]" "==" "example.org"]) := by
  refine ⟨by decide, by decide⟩

/-- C6, amended: repeat-rules keep the request active. From a request state
that is absent, or not finished with an `int` counter below 100, when every
rule before `r` returns `PCRE_ERROR_NOMATCH`, `r` matches, has a non-empty
template and `once = 0`: `process_rewrite_rules` returns `HANDLER_COMEBACK`,
the new URI is the expansion of the template of `r`, the request state exists
and is not finished, and the invocation that follows is the scan of its rule
set against the new URI (after the counter increment). -/
theorem repeat_rule_keeps_active (E : collaborators pcre cond_cache_t)
    (context : Option data_config) (con : connection)
    (pre post : List (rewrite_rule pcre)) (r : rewrite_rule pcre) (size : Nat)
    (hs : below_limit con)
    (hpre : ∀ q ∈ pre, (E.pcre_exec q.key con.uri).n = PCRE_ERROR_NOMATCH)
    (hr : 0 ≤ (E.pcre_exec r.key con.uri).n) (hv : r.value.length ≠ 0)
    (ho : r.once = 0) :
    ∃ con1, process_rewrite_rules E context con { ptr := pre ++ r :: post, size := size }
        = some (handler_t.HANDLER_COMEBACK, con1, []) ∧
      con1.uri = E.pcre_keyvalue_buffer_subst r.value (E.pcre_exec r.key con.uri).list
        (E.pcre_exec r.key con.uri).n (context.map (fun dc => E.cond_cache dc.context_ndx)) ∧
      con1.plugin_ctx.map (fun h => h.state) = some rewrite_state.REWRITE_STATE_UNSET ∧
      ∀ (context1 : Option data_config) (kvb1 : rewrite_rule_buffer pcre),
        process_rewrite_rules E context1 con1 kvb1
          = some (scan_rules E context1 con1.uri (count_pass con1) kvb1.ptr) := by
  obtain ⟨hl, _, hst⟩ := count_pass_loops_below con hs
  refine ⟨_, process_first_rewrite E context con pre post r size
    (below_limit_reaches_scan con hs) hpre hr hv, rfl, ?_, ?_⟩
  · simpa [state_after_rewrite, ho] using hst
  · intro context1 kvb1
    apply process_uri
    intro h hh
    simp only [state_after_rewrite, ho, ne_eq, not_true_eq_false, if_false,
      Option.some.injEq] at hh
    subst hh
    exact ⟨hl, by rw [hst]; decide⟩

/-- Witness of C6 (amended): the rule set `[^/a$ -> /b, ^/b$ -> /c]`, both
repeat-rules, on the fresh request `/a`: the first pass instantiates the
general statement, and the whole run is `HANDLER_COMEBACK` with `/b`,
`HANDLER_COMEBACK` with `/c`, then `HANDLER_GO_ON`: three passes, no loop error. -/
theorem repeat_rule_keeps_active_witness :
    (∃ con1, process_rewrite_rules example_collaborators none
        { plugin_ctx := none, uri := "/a", physical_path := "", mode := 0 }
        { ptr := [] ++ ⟨"^/a$", "/b", 0⟩ :: [⟨"^/b$", "/c", 0⟩], size := 4 }
        = some (handler_t.HANDLER_COMEBACK, con1, []) ∧
      con1.uri = "/b" ∧
      con1.plugin_ctx.map (fun h => h.state) = some rewrite_state.REWRITE_STATE_UNSET ∧
      ∀ (context1 : Option data_config) (kvb1 : rewrite_rule_buffer String),
        process_rewrite_rules example_collaborators context1 con1 kvb1
          = some (scan_rules example_collaborators context1 con1.uri (count_pass con1)
              kvb1.ptr)) ∧
    process_rewrite_rules example_collaborators none
        { plugin_ctx := some ⟨rewrite_state.REWRITE_STATE_UNSET, 0⟩, uri := "/b",
          physical_path := "", mode := 0 }
        { ptr := [⟨"^/a$", "/b", 0⟩, ⟨"^/b$", "/c", 0⟩], size := 4 }
      = some (handler_t.HANDLER_COMEBACK,
          { plugin_ctx := some ⟨rewrite_state.REWRITE_STATE_UNSET, 1⟩, uri := "/c",
            physical_path := "", mode := 0 }, []) ∧
    redrive example_collaborators none
        { ptr := [⟨"^/a$", "/b", 0⟩, ⟨"^/b$", "/c", 0⟩], size := 4 } 3
        { plugin_ctx := none, uri := "/a", physical_path := "", mode := 0 }
      = some (3, some (handler_t.HANDLER_GO_ON,
          { plugin_ctx := some ⟨rewrite_state.REWRITE_STATE_UNSET, 2⟩, uri := "/c",
            physical_path := "", mode := 0 }, [])) :=
  ⟨repeat_rule_keeps_active example_collaborators none
    { plugin_ctx := none, uri := "/a", physical_path := "", mode := 0 }
    [] [⟨"^/b$", "/c", 0⟩] ⟨"^/a$", "/b", 0⟩ 4 (by intro h hh; cases hh) (by decide)
    (by decide) (by decide) (by decide), by decide, by decide⟩

/-- C6 as stated fails: the request state is not finished and its counter 100
is not above the limit; the repeat-rule `^/a$ -> /b` rewrites `/a` to `/b` and
leaves the state unfinished with counter 101; the invocation that follows does
not scan the rule set against `/b` (the scan would rewrite it to `/c`): it
returns `HANDLER_ERROR`. -/
theorem repeat_rule_at_counter_100_then_error :
    process_rewrite_rules example_collaborators (some example_scope)
        { plugin_ctx := some ⟨rewrite_state.REWRITE_STATE_UNSET, 100⟩, uri := "/a",
          physical_path := "", mode := 0 }
        { ptr := [⟨"^/a$", "/b", 0⟩, ⟨"^/b$", "/c", 0⟩], size := 4 }
      = some (handler_t.HANDLER_COMEBACK,
          { plugin_ctx := some ⟨rewrite_state.REWRITE_STATE_UNSET, 101⟩, uri := "/b",
            physical_path := "", mode := 0 }, []) ∧
    process_rewrite_rules example_collaborators (some example_scope)
        { plugin_ctx := some ⟨rewrite_state.REWRITE_STATE_UNSET, 101⟩, uri := "/b",
          physical_path := "", mode := 0 }
        { ptr := [⟨"^/a$", "/b", 0⟩, ⟨"^/b$", "/c", 0⟩], size := 4 }
      = some (handler_t.HANDLER_ERROR,
          { plugin_ctx := some ⟨rewrite_state.REWRITE_STATE_UNSET, 102⟩, uri := "/b",
            physical_path := "", mode := 0 },
          [log_entry.endless_loop "HTTP[host]" "==" "example.org"]) ∧
    scan_rules example_collaborators (some example_scope) "/b"
        { plugin_ctx := some ⟨rewrite_state.REWRITE_STATE_UNSET, 102⟩, uri := "/b",
          physical_path := "", mode := 0 }
        [⟨"^/a$", "/b", 0⟩, ⟨"^/b$", "/c", 0⟩]
      = (handler_t.HANDLER_COMEBACK,
          { plugin_ctx := some ⟨rewrite_state.REWRITE_STATE_UNSET, 102⟩, uri := "/c",
            physical_path := "", mode := 0 }, []) := by
  refine ⟨by decide, by decide, by decide⟩

/-- C2: cascade by declaration position. For the scope list `root :: rest`,
`mod_rewrite_patch_connection` yields the selection that the spec words: for
each kind, the rule set and owning scope of the last scope of `rest` whose
condition matches and that defines a directive key of the kind, else the rule
set of the root and no owning scope. The scope of the root is not read: any
other `data_config` in its place, whatever its condition, gives the same
result. -/
theorem cascade_by_declaration_position (E : collaborators pcre cond_cache_t)
    (con : connection) (root : data_config × plugin_config pcre)
    (rest : List (data_config × plugin_config pcre)) :
    mod_rewrite_patch_connection E con (root :: rest)
        = some (effective_selection E con root.2 rest) ∧
      ∀ dc0 : data_config,
        mod_rewrite_patch_connection E con ((dc0, root.2) :: rest)
          = mod_rewrite_patch_connection E con (root :: rest) := by
  refine ⟨?_, fun _ => rfl⟩
  simp only [mod_rewrite_patch_connection, foldl_patch_scope, effective_selection]
  congr 2 <;> cases last_matching_scope E con _ rest <;> rfl

/-- C9: the missing-file rewrite is skipped for an existing regular file. In
`DIRECT` mode or not, with any scopes `root :: rest`, any request state and any
rules: when `stat_cache_get_entry` succeeds on the physical path with a
regular file, `mod_rewrite_physical` returns `HANDLER_GO_ON`, logs nothing and
leaves the connection (URI, physical path, loop counter, finished flag) as it
was. -/
theorem physical_skips_regular_file (E : collaborators pcre cond_cache_t)
    (root : data_config × plugin_config pcre)
    (rest : List (data_config × plugin_config pcre)) (con : connection)
    (sce : stat_cache_entry)
    (hstat : E.stat_cache_get_entry con.physical_path = some sce)
    (hreg : sce.is_reg = true) :
    mod_rewrite_physical E (root :: rest) con = some (handler_t.HANDLER_GO_ON, con, []) := by
  unfold mod_rewrite_physical
  split_ifs with hm
  · rfl
  · simp only [mod_rewrite_patch_connection, hstat, hreg, if_true]
    split <;> rfl

/-- Witness of C9: `/srv/a` is a regular file; the if-not-file rule
`^/a$ -> /b` matches the URI `/a` and the request state is active, yet nothing
changes and the counter stays at 5. -/
theorem physical_skips_regular_file_witness :
    mod_rewrite_physical
        { example_collaborators with stat_cache_get_entry := fun _ => some ⟨true⟩ }
        ((⟨"global", "", "", 0, [⟨"url.rewrite-if-not-file", data_value.kvlist [("^/a$", "/b")]⟩]⟩,
          ⟨some ⟨[], 0⟩, some ⟨[⟨"^/a$", "/b", 1⟩], 4⟩, none, none⟩) :: [])
        { plugin_ctx := some ⟨rewrite_state.REWRITE_STATE_UNSET, 5⟩, uri := "/a",
          physical_path := "/srv/a", mode := 0 }
      = some (handler_t.HANDLER_GO_ON,
          { plugin_ctx := some ⟨rewrite_state.REWRITE_STATE_UNSET, 5⟩, uri := "/a",
            physical_path := "/srv/a", mode := 0 }, []) ∧
    mod_rewrite_physical example_collaborators
        ((⟨"global", "", "", 0, [⟨"url.rewrite-if-not-file", data_value.kvlist [("^/a$", "/b")]⟩]⟩,
          ⟨some ⟨[], 0⟩, some ⟨[⟨"^/a$", "/b", 1⟩], 4⟩, none, none⟩) :: [])
        { plugin_ctx := some ⟨rewrite_state.REWRITE_STATE_UNSET, 5⟩, uri := "/a",
          physical_path := "/srv/a", mode := 0 }
      = some (handler_t.HANDLER_COMEBACK,
          { plugin_ctx := some ⟨rewrite_state.REWRITE_STATE_FINISHED, 6⟩, uri := "/b",
            physical_path := "", mode := 0 }, []) :=
  ⟨physical_skips_regular_file
    { example_collaborators with stat_cache_get_entry := fun _ => some ⟨true⟩ }
    _ [] _ ⟨true⟩ rfl rfl, by decide⟩

/-- C8, the code at a failing input: the global scope declares
`url.rewrite-once = ("^/ok$" => "/x", "(" => "/y", "^/later$" => "/z")` and `(`
does not compile. `mod_rewrite_set_defaults` logs the failure and returns
`HANDLER_GO_ON`; the rule declared before the invalid pattern is left in the
rule set of the scope, and `mod_rewrite_uri_handler` applies it to `/ok`. -/
theorem set_defaults_keeps_rules_before_invalid_pattern :
    mod_rewrite_set_defaults example_collaborators
        [⟨"global", "", "", 0, [⟨"url.rewrite-once",
            data_value.kvlist [("^/ok$", "/x"), ("(", "/y"), ("^/later$", "/z")]⟩]⟩]
      = (handler_t.HANDLER_GO_ON,
          [some ⟨some ⟨[⟨"^/ok$", "/x", 1⟩], 4⟩, some ⟨[], 0⟩, none, none⟩],
          [log_entry.pcre_compile_failed "("]) ∧
    mod_rewrite_uri_handler example_collaborators
        [(⟨"global", "", "", 0, [⟨"url.rewrite-once",
            data_value.kvlist [("^/ok$", "/x"), ("(", "/y"), ("^/later$", "/z")]⟩]⟩,
          ⟨some ⟨[⟨"^/ok$", "/x", 1⟩], 4⟩, some ⟨[], 0⟩, none, none⟩)]
        { plugin_ctx := none, uri := "/ok", physical_path := "", mode := 0 }
      = some (handler_t.HANDLER_COMEBACK,
          { plugin_ctx := some ⟨rewrite_state.REWRITE_STATE_FINISHED, 0⟩, uri := "/x",
            physical_path := "", mode := 0 }, []) := by
  refine ⟨by rfl, by decide⟩

/-- C10, the code at a failing input: the only scope is the global one, with
`url.rewrite-repeat = ("^/a" => "/a")`. The resolver records no owning scope
for the primary kind; on the request `/a` whose counter has reached 101,
`mod_rewrite_uri_handler` reads `dc->comp_key` through the NULL
`p->conf.context` (the fault `none`); and a fresh request `/a` gets there at
its 103rd pass. -/
theorem loop_report_reads_absent_scope :
    (mod_rewrite_patch_connection example_collaborators
        { plugin_ctx := some ⟨rewrite_state.REWRITE_STATE_UNSET, 101⟩, uri := "/a",
          physical_path := "", mode := 0 }
        [(⟨"global", "", "", 0, [⟨"url.rewrite-repeat", data_value.kvlist [("^/a", "/a")]⟩]⟩,
          ⟨some ⟨[⟨"^/a", "/a", 0⟩], 4⟩, some ⟨[], 0⟩, none, none⟩)]).map (fun c => c.context)
      = some none ∧
    mod_rewrite_uri_handler example_collaborators
        [(⟨"global", "", "", 0, [⟨"url.rewrite-repeat", data_value.kvlist [("^/a", "/a")]⟩]⟩,
          ⟨some ⟨[⟨"^/a", "/a", 0⟩], 4⟩, some ⟨[], 0⟩, none, none⟩)]
        { plugin_ctx := some ⟨rewrite_state.REWRITE_STATE_UNSET, 101⟩, uri := "/a",
          physical_path := "", mode := 0 }
      = none ∧
    redrive example_collaborators none { ptr := [⟨"^/a", "/a", 0⟩], size := 4 } 103
        { plugin_ctx := none, uri := "/a", physical_path := "", mode := 0 }
      = some (103, none) := by
  refine ⟨by rfl, by rfl, by rfl⟩

/-- C11 (against the spec-modelled expander): backreference expansion. When
the rule `r` is the first to match, from a request state that reaches the scan,
and its non-empty template is the text of `parts` (literal characters other
than `$`, and markers `$N` with `N` in 0..9), `process_rewrite_rules` returns
`HANDLER_COMEBACK` and the new URI is the template with each marker `$N`
replaced by the `N`-th substring captured by `pcre_exec`; a marker beyond the
captures is replaced by nothing. -/
theorem backreference_expansion (E : collaborators pcre cond_cache_t)
    (context : Option data_config) (con : connection)
    (pre post : List (rewrite_rule pcre)) (r : rewrite_rule pcre) (size : Nat)
    (parts : List template_part)
    (hs : reaches_scan con)
    (hpre : ∀ q ∈ pre, (E.pcre_exec q.key con.uri).n = PCRE_ERROR_NOMATCH)
    (hr : 0 ≤ (E.pcre_exec r.key con.uri).n) (hv : r.value.length ≠ 0)
    (ht : r.value = String.mk (template_of_parts parts))
    (hp : ∀ p ∈ parts, part_ok p = true) :
    (∃ con1, process_rewrite_rules (with_spec_expander E) context con
          { ptr := pre ++ r :: post, size := size }
        = some (handler_t.HANDLER_COMEBACK, con1, []) ∧
      con1.uri = String.mk (expansion_of_parts (E.pcre_exec r.key con.uri).list parts)) ∧
    (∀ (N : Nat) (ps : List template_part), (E.pcre_exec r.key con.uri).list.length ≤ N →
      expansion_of_parts (E.pcre_exec r.key con.uri).list (template_part.backref N :: ps)
        = expansion_of_parts (E.pcre_exec r.key con.uri).list ps) := by
  constructor
  · refine ⟨_, process_first_rewrite (with_spec_expander E) context con pre post r size
      hs hpre hr hv, ?_⟩
    show String.mk (expand_template (E.pcre_exec r.key con.uri).list r.value.data) = _
    rw [ht, expand_template_parts _ parts hp]
  · intro N ps hN
    simp [expansion_of_parts, List.getElem?_eq_none hN]

/-- Witness of C11: the template `/x/$1` with the pattern `^/old/(.+)$` on
`/old/page` yields `/x/page`, and `$2`, which names no capture, yields nothing. -/
theorem backreference_expansion_witness :
    (∃ con1, process_rewrite_rules (with_spec_expander example_capture_collaborators) none
          { plugin_ctx := none, uri := "/old/page", physical_path := "", mode := 0 }
          { ptr := [] ++ ⟨"^/old/(.+)$", "/x/$1", 1⟩ :: [], size := 4 }
        = some (handler_t.HANDLER_COMEBACK, con1, []) ∧
      con1.uri = "/x/page") ∧
    (∀ (N : Nat) (ps : List template_part),
      (example_capture_exec "^/old/(.+)$" "/old/page").list.length ≤ N →
      expansion_of_parts (example_capture_exec "^/old/(.+)$" "/old/page").list
          (template_part.backref N :: ps)
        = expansion_of_parts (example_capture_exec "^/old/(.+)$" "/old/page").list ps) :=
  backreference_expansion example_capture_collaborators none
    { plugin_ctx := none, uri := "/old/page", physical_path := "", mode := 0 }
    [] [] ⟨"^/old/(.+)$", "/x/$1", 1⟩ 4
    [template_part.lit '/', template_part.lit 'x', template_part.lit '/',
      template_part.backref 1]
    (by intro h hh; cases hh) (by decide) (by decide) (by decide) (by decide) (by decide)

/-- C12: matcher faults abort, non-matches do not. From a request state that
reaches the scan: `process_rewrite_rules` returns `HANDLER_ERROR` exactly when
some rule `r` has a negative `pcre_exec` result other than
`PCRE_ERROR_NOMATCH` while every rule before it has a negative result (none
has matched); at the first such rule the result is `HANDLER_ERROR` with the
fault logged and the connection changed only by the counter increment (URI and
finished flag unchanged), whatever rules `post` follow; and when every rule
returns `PCRE_ERROR_NOMATCH` the result is `HANDLER_GO_ON`. -/
theorem matcher_fault_aborts (E : collaborators pcre cond_cache_t)
    (context : Option data_config) (con : connection) (kvb : rewrite_rule_buffer pcre)
    (hs : reaches_scan con) :
    ((∃ c l, process_rewrite_rules E context con kvb = some (handler_t.HANDLER_ERROR, c, l)) ↔
      ∃ pre r post, kvb.ptr = pre ++ r :: post ∧
        (∀ q ∈ pre, (E.pcre_exec q.key con.uri).n < 0) ∧
        (E.pcre_exec r.key con.uri).n < 0 ∧
        (E.pcre_exec r.key con.uri).n ≠ PCRE_ERROR_NOMATCH) ∧
    (∀ pre r post, kvb.ptr = pre ++ r :: post →
      (∀ q ∈ pre, (E.pcre_exec q.key con.uri).n = PCRE_ERROR_NOMATCH) →
      (E.pcre_exec r.key con.uri).n < 0 →
      (E.pcre_exec r.key con.uri).n ≠ PCRE_ERROR_NOMATCH →
      process_rewrite_rules E context con kvb
          = some (handler_t.HANDLER_ERROR, count_pass con,
              [log_entry.exec_error (E.pcre_exec r.key con.uri).n]) ∧
        (count_pass con).uri = con.uri ∧
        (count_pass con).plugin_ctx.map (fun h => h.state)
          = con.plugin_ctx.map (fun h => h.state)) ∧
    ((∀ q ∈ kvb.ptr, (E.pcre_exec q.key con.uri).n = PCRE_ERROR_NOMATCH) →
      process_rewrite_rules E context con kvb
        = some (handler_t.HANDLER_GO_ON, count_pass con, [])) := by
  have hp := process_uri E context con kvb hs
  refine ⟨?_, ?_, ?_⟩
  · rw [← scan_rules_error_iff E context con.uri (count_pass con) kvb.ptr, hp]
    constructor
    · rintro ⟨c, l, h⟩
      rw [Option.some.inj h]
    · intro h
      exact ⟨_, _, by rw [← h]⟩
  · intro pre r post hk hpre h1 h2
    refine ⟨?_, rfl, ?_⟩
    · rw [hp, hk, scan_rules_skip E context con.uri _ pre (r :: post) hpre,
        scan_rules_fault E context con.uri _ r post h1 h2]
    · cases hc : con.plugin_ctx <;> simp [count_pass, hc]
  · intro h
    rw [hp, scan_rules_no_match E context con.uri _ kvb.ptr h]

/-- Witness of C12: on `/limit` the rule `^/a$` does not match and the rule
`^/limit` faults with -8: the result is `HANDLER_ERROR`, the URI and the
unfinished state are kept, and the rule after it is not tried; a rule set in
which no rule matches `/limit` gives `HANDLER_GO_ON`. -/
theorem matcher_fault_aborts_witness :
    process_rewrite_rules example_fault_collaborators none
        { plugin_ctx := some ⟨rewrite_state.REWRITE_STATE_UNSET, 2⟩, uri := "/limit",
          physical_path := "", mode := 0 }
        { ptr := [⟨"^/a$", "/x", 1⟩, ⟨"^/limit", "/y", 1⟩, ⟨"^/li", "/z", 1⟩], size := 4 }
      = some (handler_t.HANDLER_ERROR,
          { plugin_ctx := some ⟨rewrite_state.REWRITE_STATE_UNSET, 3⟩, uri := "/limit",
            physical_path := "", mode := 0 }, [log_entry.exec_error (-8)]) ∧
    process_rewrite_rules example_fault_collaborators none
        { plugin_ctx := some ⟨rewrite_state.REWRITE_STATE_UNSET, 2⟩, uri := "/limit",
          physical_path := "", mode := 0 }
        { ptr := [⟨"^/a$", "/x", 1⟩, ⟨"^/b$", "/y", 1⟩], size := 4 }
      = some (handler_t.HANDLER_GO_ON,
          { plugin_ctx := some ⟨rewrite_state.REWRITE_STATE_UNSET, 3⟩, uri := "/limit",
            physical_path := "", mode := 0 }, []) :=
  ⟨((matcher_fault_aborts example_fault_collaborators none
      { plugin_ctx := some ⟨rewrite_state.REWRITE_STATE_UNSET, 2⟩, uri := "/limit",
        physical_path := "", mode := 0 }
      { ptr := [⟨"^/a$", "/x", 1⟩, ⟨"^/limit", "/y", 1⟩, ⟨"^/li", "/z", 1⟩], size := 4 }
      (by intro h hh; cases hh; decide)).2.1
        [⟨"^/a$", "/x", 1⟩] ⟨"^/limit", "/y", 1⟩ [⟨"^/li", "/z", 1⟩] rfl
        (by decide) (by decide) (by decide)).1,
   (matcher_fault_aborts example_fault_collaborators none
      { plugin_ctx := some ⟨rewrite_state.REWRITE_STATE_UNSET, 2⟩, uri := "/limit",
        physical_path := "", mode := 0 }
      { ptr := [⟨"^/a$", "/x", 1⟩, ⟨"^/b$", "/y", 1⟩], size := 4 }
      (by intro h hh; cases hh; decide)).2.2 (by decide)⟩

/-- C14: reset returns the request to unset. Whatever the request state,
`mod_rewrite_con_reset` returns `HANDLER_GO_ON` and leaves no request state,
with the URI and the physical path kept; the invocation of
`process_rewrite_rules` that follows is the scan of the rule set (neither the
finished pass-through nor the loop failure), and it gives the return code,
request state, URI and log that it gives on any connection `fresh` without
request state and with the same URI. -/
theorem reset_returns_to_unset (E : collaborators pcre cond_cache_t)
    (context : Option data_config) (kvb : rewrite_rule_buffer pcre) (con fresh : connection)
    (hf : fresh.plugin_ctx = none) (hu : fresh.uri = con.uri) :
    (mod_rewrite_con_reset con).1 = handler_t.HANDLER_GO_ON ∧
    (mod_rewrite_con_reset con).2.plugin_ctx = none ∧
    (mod_rewrite_con_reset con).2.uri = con.uri ∧
    (mod_rewrite_con_reset con).2.physical_path = con.physical_path ∧
    process_rewrite_rules E context (mod_rewrite_con_reset con).2 kvb
      = some (scan_rules E context con.uri (mod_rewrite_con_reset con).2 kvb.ptr) ∧
    (process_rewrite_rules E context (mod_rewrite_con_reset con).2 kvb).map outcome_view
      = (process_rewrite_rules E context fresh kvb).map outcome_view := by
  refine ⟨rfl, rfl, rfl, rfl, rfl, ?_⟩
  obtain ⟨ctx, uri, path, mode⟩ := fresh
  cases hf
  simp only [mod_rewrite_con_reset, process_rewrite_rules, Option.map_some', Option.some.injEq]
  simp only at hu
  rw [hu]
  exact scan_rules_view E context con.uri _ _ kvb.ptr rfl rfl

/-- Witness of C14: a request over the loop limit and finished is reset; the
next invocation rewrites `/a` to `/b` exactly as on a fresh request. -/
theorem reset_returns_to_unset_witness :
    (mod_rewrite_con_reset
        { plugin_ctx := some ⟨rewrite_state.REWRITE_STATE_FINISHED, 150⟩, uri := "/a",
          physical_path := "/srv/a", mode := 0 }).2
      = { plugin_ctx := none, uri := "/a", physical_path := "/srv/a", mode := 0 } ∧
    (process_rewrite_rules example_collaborators none
        (mod_rewrite_con_reset
          { plugin_ctx := some ⟨rewrite_state.REWRITE_STATE_FINISHED, 150⟩, uri := "/a",
            physical_path := "/srv/a", mode := 0 }).2
        { ptr := [⟨"^/a$", "/b", 0⟩], size := 4 }).map outcome_view
      = (process_rewrite_rules example_collaborators none
          { plugin_ctx := none, uri := "/a", physical_path := "", mode := 0 }
          { ptr := [⟨"^/a$", "/b", 0⟩], size := 4 }).map outcome_view ∧
    process_rewrite_rules example_collaborators none
        { plugin_ctx := none, uri := "/a", physical_path := "", mode := 0 }
        { ptr := [⟨"^/a$", "/b", 0⟩], size := 4 }
      = some (handler_t.HANDLER_COMEBACK,
          { plugin_ctx := some ⟨rewrite_state.REWRITE_STATE_UNSET, 0⟩, uri := "/b",
            physical_path := "", mode := 0 }, []) :=
  ⟨rfl, (reset_returns_to_unset example_collaborators none
      { ptr := [⟨"^/a$", "/b", 0⟩], size := 4 }
      { plugin_ctx := some ⟨rewrite_state.REWRITE_STATE_FINISHED, 150⟩, uri := "/a",
        physical_path := "/srv/a", mode := 0 }
      { plugin_ctx := none, uri := "/a", physical_path := "", mode := 0 } rfl rfl).2.2.2.2.2,
    by decide⟩

/-- C20: one request state serves both rewrite kinds. `mod_rewrite_physical`
reads the request state `con.plugin_ctx` that `mod_rewrite_uri_handler` writes:
when that state is finished (a primary once-rule has matched) and its counter
is at most 100, `mod_rewrite_physical` returns `HANDLER_GO_ON` and logs
nothing, and the connection afterwards is the one before or differs from it
only by the counter increment; the URI and the physical path are unchanged,
whatever if-not-file rules there are and whatever the stat cache reports. -/
theorem finished_state_stops_missing_file_rewrite (E : collaborators pcre cond_cache_t)
    (root : data_config × plugin_config pcre)
    (rest : List (data_config × plugin_config pcre)) (con : connection) (h : handler_ctx)
    (hc : con.plugin_ctx = some h)
    (hf : h.state = rewrite_state.REWRITE_STATE_FINISHED) (hl : h.loops ≤ 100) :
    ∃ c, mod_rewrite_physical E (root :: rest) con = some (handler_t.HANDLER_GO_ON, c, []) ∧
      (c = con ∨ c = count_pass con) ∧
      c.uri = con.uri ∧ c.physical_path = con.physical_path := by
  unfold mod_rewrite_physical
  split_ifs with hm
  · exact ⟨con, rfl, Or.inl rfl, rfl, rfl⟩
  · rw [patch_connection_eq]
    simp only
    cases hk : (effective_selection E con root.2 rest).rewrite_NF with
    | none => exact ⟨con, rfl, Or.inl rfl, rfl, rfl⟩
    | some kvb =>
      simp only
      split_ifs with hreg
      · exact ⟨con, rfl, Or.inl rfl, rfl, rfl⟩
      · rw [process_finished E _ con kvb h hc hl hf]
        exact ⟨count_pass con, rfl, Or.inr rfl, rfl, rfl⟩

/-- Witness of C20: the global scope has the primary once-rule `^/a$ -> /b` and
the if-not-file rule `^/b$ -> /c`, and no file exists. The pre-dispatch phase
rewrites the fresh request `/a` to `/b` and finishes the state; the
missing-file phase on that connection returns `HANDLER_GO_ON` and keeps `/b`
and the physical path, although on a request `/b` without state it rewrites
to `/c` and empties the path. -/
theorem finished_state_stops_missing_file_rewrite_witness :
    mod_rewrite_uri_handler example_collaborators
        [(⟨"global", "", "", 0, []⟩,
          ⟨some ⟨[⟨"^/a$", "/b", 1⟩], 4⟩, some ⟨[⟨"^/b$", "/c", 1⟩], 4⟩, none, none⟩)]
        { plugin_ctx := none, uri := "/a", physical_path := "", mode := 0 }
      = some (handler_t.HANDLER_COMEBACK,
          { plugin_ctx := some ⟨rewrite_state.REWRITE_STATE_FINISHED, 0⟩, uri := "/b",
            physical_path := "", mode := 0 }, []) ∧
    (∃ c, mod_rewrite_physical example_collaborators
        ((⟨"global", "", "", 0, []⟩,
          ⟨some ⟨[⟨"^/a$", "/b", 1⟩], 4⟩, some ⟨[⟨"^/b$", "/c", 1⟩], 4⟩, none, none⟩) :: [])
        { plugin_ctx := some ⟨rewrite_state.REWRITE_STATE_FINISHED, 0⟩, uri := "/b",
          physical_path := "/srv/b", mode := 0 }
        = some (handler_t.HANDLER_GO_ON, c, []) ∧
      (c = { plugin_ctx := some ⟨rewrite_state.REWRITE_STATE_FINISHED, 0⟩, uri := "/b",
             physical_path := "/srv/b", mode := 0 } ∨
        c = count_pass { plugin_ctx := some ⟨rewrite_state.REWRITE_STATE_FINISHED, 0⟩,
                         uri := "/b", physical_path := "/srv/b", mode := 0 }) ∧
      c.uri = "/b" ∧ c.physical_path = "/srv/b") ∧
    mod_rewrite_physical example_collaborators
        [(⟨"global", "", "", 0, []⟩,
          ⟨some ⟨[⟨"^/a$", "/b", 1⟩], 4⟩, some ⟨[⟨"^/b$", "/c", 1⟩], 4⟩, none, none⟩)]
        { plugin_ctx := none, uri := "/b", physical_path := "/srv/b", mode := 0 }
      = some (handler_t.HANDLER_COMEBACK,
          { plugin_ctx := some ⟨rewrite_state.REWRITE_STATE_FINISHED, 0⟩, uri := "/c",
            physical_path := "", mode := 0 }, []) :=
  ⟨by decide,
   finished_state_stops_missing_file_rewrite example_collaborators _ []
      { plugin_ctx := some ⟨rewrite_state.REWRITE_STATE_FINISHED, 0⟩, uri := "/b",
        physical_path := "/srv/b", mode := 0 }
      ⟨rewrite_state.REWRITE_STATE_FINISHED, 0⟩ rfl rfl (by decide),
   by decide⟩

/-- C17 as stated fails: the matching scope declares `url.rewrite-once` (rule
`^/a$ -> /o`) and after it `url.rewrite-repeat` (rule `^/b$ -> /r`). The
effective primary rule set holds both rules, not the rules of the
later-declared directive only, and the request `/a` is rewritten by the
once-rule. -/
theorem earlier_declared_directive_stays_effective :
    (mod_rewrite_patch_connection example_collaborators
        { plugin_ctx := none, uri := "/a", physical_path := "", mode := 0 }
        [(⟨"global", "", "", 0, []⟩, ⟨some ⟨[], 0⟩, some ⟨[], 0⟩, none, none⟩),
         (example_once_then_repeat,
          (set_defaults_scope example_collaborators example_once_then_repeat).1)]).map
        (fun conf => conf.rewrite)
      = some (some ⟨[⟨"^/a$", "/o", 1⟩, ⟨"^/b$", "/r", 0⟩], 4⟩) ∧
    mod_rewrite_uri_handler example_collaborators
        [(⟨"global", "", "", 0, []⟩, ⟨some ⟨[], 0⟩, some ⟨[], 0⟩, none, none⟩),
         (example_once_then_repeat,
          (set_defaults_scope example_collaborators example_once_then_repeat).1)]
        { plugin_ctx := none, uri := "/a", physical_path := "", mode := 0 }
      = some (handler_t.HANDLER_COMEBACK,
          { plugin_ctx := some ⟨rewrite_state.REWRITE_STATE_FINISHED, 0⟩, uri := "/o",
            physical_path := "", mode := 0 }, []) := by
  refine ⟨by rfl, by decide⟩

/-- C18: directive-to-rule mapping at load time. When
`config_insert_values_global` succeeds for every scope,
`mod_rewrite_set_defaults` stores for each scope, in order, the two rule sets
built from its directives; and for every scope a rule is in the primary rule
set exactly when it is a rule of `url.rewrite`, `url.rewrite-once` or
`url.rewrite-final` loaded with `once = 1` or a rule of `url.rewrite-repeat`
loaded with `once = 0`, and in the if-not-file rule set exactly when it is a
rule of `url.rewrite-if-not-file` loaded with `once = 1` or of
`url.rewrite-repeat-if-not-file` loaded with `once = 0`; a rule loaded with
the flag `once` carries that flag. -/
theorem directive_to_rule_mapping (E : collaborators pcre cond_cache_t)
    (config_context : List data_config)
    (hins : ∀ dc ∈ config_context, ∀ b, E.config_insert_values_global dc.value b = 0) :
    (mod_rewrite_set_defaults E config_context).1 = handler_t.HANDLER_GO_ON ∧
    (mod_rewrite_set_defaults E config_context).2.1
      = config_context.map (fun c => some (set_defaults_scope E c).1) ∧
    (∀ config : data_config, ∃ kvb nf,
      (set_defaults_scope E config).1.rewrite = some kvb ∧
      (set_defaults_scope E config).1.rewrite_NF = some nf ∧
      (∀ r, r ∈ kvb.ptr ↔
        (r ∈ directive_rules E config.value "url.rewrite" 1 ∨
          r ∈ directive_rules E config.value "url.rewrite-once" 1 ∨
          r ∈ directive_rules E config.value "url.rewrite-final" 1 ∨
          r ∈ directive_rules E config.value "url.rewrite-repeat" 0)) ∧
      (∀ r, r ∈ nf.ptr ↔
        (r ∈ directive_rules E config.value "url.rewrite-if-not-file" 1 ∨
          r ∈ directive_rules E config.value "url.rewrite-repeat-if-not-file" 0))) ∧
    (∀ (ca : List data_unset) (option : String) (once : Int),
      ∀ r ∈ directive_rules E ca option once, r.once = once) := by
  refine ⟨set_defaults_loop_go_on E config_context 0 hins,
    set_defaults_loop_storage E config_context 0 hins, ?_,
    fun ca option once => directive_rules_once E ca option once⟩
  intro config
  obtain ⟨kvb, nf, hk, hf, hkp, hfp⟩ := set_defaults_scope_rules E config
  refine ⟨kvb, nf, hk, hf, ?_, ?_⟩
  · intro r
    rw [hkp]
    simp only [List.mem_append]
    tauto
  · intro r
    rw [hfp]
    simp only [List.mem_append]

/-- Witness of C18: a global scope with all six directives; the primary rule
set holds the rules of once, final and rewrite with flag 1 and the rule of
repeat with flag 0, the if-not-file rule set the rule of if-not-file with flag
1 and the rule of repeat-if-not-file with flag 0. -/
theorem directive_to_rule_mapping_witness :
    (mod_rewrite_set_defaults example_collaborators
        [⟨"global", "", "", 0,
          [⟨"url.rewrite", data_value.kvlist [("^/1$", "/a")]⟩,
           ⟨"url.rewrite-repeat", data_value.kvlist [("^/2$", "/b")]⟩,
           ⟨"url.rewrite-repeat-if-not-file", data_value.kvlist [("^/3$", "/c")]⟩,
           ⟨"url.rewrite-if-not-file", data_value.kvlist [("^/4$", "/d")]⟩,
           ⟨"url.rewrite-final", data_value.kvlist [("^/5$", "/e")]⟩,
           ⟨"url.rewrite-once", data_value.kvlist [("^/6$", "/f")]⟩]⟩]).1
      = handler_t.HANDLER_GO_ON ∧
    (mod_rewrite_set_defaults example_collaborators
        [⟨"global", "", "", 0,
          [⟨"url.rewrite", data_value.kvlist [("^/1$", "/a")]⟩,
           ⟨"url.rewrite-repeat", data_value.kvlist [("^/2$", "/b")]⟩,
           ⟨"url.rewrite-repeat-if-not-file", data_value.kvlist [("^/3$", "/c")]⟩,
           ⟨"url.rewrite-if-not-file", data_value.kvlist [("^/4$", "/d")]⟩,
           ⟨"url.rewrite-final", data_value.kvlist [("^/5$", "/e")]⟩,
           ⟨"url.rewrite-once", data_value.kvlist [("^/6$", "/f")]⟩]⟩]).2.1
      = [some ⟨some ⟨[⟨"^/6$", "/f", 1⟩, ⟨"^/5$", "/e", 1⟩, ⟨"^/1$", "/a", 1⟩,
                      ⟨"^/2$", "/b", 0⟩], 4⟩,
               some ⟨[⟨"^/4$", "/d", 1⟩, ⟨"^/3$", "/c", 0⟩], 4⟩, none, none⟩] :=
  ⟨(directive_to_rule_mapping example_collaborators
      [⟨"global", "", "", 0,
        [⟨"url.rewrite", data_value.kvlist [("^/1$", "/a")]⟩,
         ⟨"url.rewrite-repeat", data_value.kvlist [("^/2$", "/b")]⟩,
         ⟨"url.rewrite-repeat-if-not-file", data_value.kvlist [("^/3$", "/c")]⟩,
         ⟨"url.rewrite-if-not-file", data_value.kvlist [("^/4$", "/d")]⟩,
         ⟨"url.rewrite-final", data_value.kvlist [("^/5$", "/e")]⟩,
         ⟨"url.rewrite-once", data_value.kvlist [("^/6$", "/f")]⟩]⟩]
      (fun _ _ _ => rfl)).1,
   (directive_to_rule_mapping example_collaborators
      [⟨"global", "", "", 0,
        [⟨"url.rewrite", data_value.kvlist [("^/1$", "/a")]⟩,
         ⟨"url.rewrite-repeat", data_value.kvlist [("^/2$", "/b")]⟩,
         ⟨"url.rewrite-repeat-if-not-file", data_value.kvlist [("^/3$", "/c")]⟩,
         ⟨"url.rewrite-if-not-file", data_value.kvlist [("^/4$", "/d")]⟩,
         ⟨"url.rewrite-final", data_value.kvlist [("^/5$", "/e")]⟩,
         ⟨"url.rewrite-once", data_value.kvlist [("^/6$", "/f")]⟩]⟩]
      (fun _ _ _ => rfl)).2.1⟩

set_option maxRecDepth 4096 in
/-- C19, the code at a failing input: the only scope is the global one, with
the repeat-rule `^/a -> /a`, and the request `/a` is fresh. An invocation
without request state counts nothing (a request that matches no rule keeps no
state); the first 102 passes each return `HANDLER_COMEBACK` and leave the
counter at 101; the 103rd pass of `mod_rewrite_uri_handler` finds `loops > 100`
and reads the label through the NULL `p->conf.context` (the fault `none`)
where the claim has `HANDLER_ERROR`, which is what the same pass returns when
an owning scope is present. -/
theorem pass_103_faults_without_owning_scope :
    process_rewrite_rules example_collaborators none
        { plugin_ctx := none, uri := "/b", physical_path := "", mode := 0 }
        { ptr := [⟨"^/a", "/a", 0⟩], size := 4 }
      = some (handler_t.HANDLER_GO_ON,
          { plugin_ctx := none, uri := "/b", physical_path := "", mode := 0 }, []) ∧
    redrive example_collaborators none { ptr := [⟨"^/a", "/a", 0⟩], size := 4 } 102
        { plugin_ctx := none, uri := "/a", physical_path := "", mode := 0 } = none ∧
    invoke_times example_collaborators none { ptr := [⟨"^/a", "/a", 0⟩], size := 4 } 102
        { plugin_ctx := none, uri := "/a", physical_path := "", mode := 0 }
      = some { plugin_ctx := some ⟨rewrite_state.REWRITE_STATE_UNSET, 101⟩, uri := "/a",
               physical_path := "", mode := 0 } ∧
    mod_rewrite_uri_handler example_collaborators
        [(⟨"global", "", "", 0, [⟨"url.rewrite-repeat", data_value.kvlist [("^/a", "/a")]⟩]⟩,
          ⟨some ⟨[⟨"^/a", "/a", 0⟩], 4⟩, some ⟨[], 0⟩, none, none⟩)]
        { plugin_ctx := some ⟨rewrite_state.REWRITE_STATE_UNSET, 101⟩, uri := "/a",
          physical_path := "", mode := 0 }
      = none ∧
    process_rewrite_rules example_collaborators (some example_scope)
        { plugin_ctx := some ⟨rewrite_state.REWRITE_STATE_UNSET, 101⟩, uri := "/a",
          physical_path := "", mode := 0 }
        { ptr := [⟨"^/a", "/a", 0⟩], size := 4 }
      = some (handler_t.HANDLER_ERROR,
          { plugin_ctx := some ⟨rewrite_state.REWRITE_STATE_UNSET, 102⟩, uri := "/a",
            physical_path := "", mode := 0 },
          [log_entry.endless_loop "HTTP[host]" "==" "example.org"]) := by
  refine ⟨by decide, by decide, by decide, by rfl, by decide⟩

/-- C15: the physical path is discarded exactly on `HANDLER_COMEBACK`. For the
scopes `root :: rest`: when the phase is skipped (the mode is not `DIRECT`, or
there is no if-not-file rule set, or the stat cache reports a regular file),
`mod_rewrite_physical` returns `HANDLER_GO_ON` with the connection, and so the
physical path, untouched; in every other case (mode `DIRECT`, rule set `kvb`
selected, no regular file) it returns what `process_rewrite_rules` returns for
the if-not-file selection, with the same return code and log, the fault when
the engine faults, and the physical path empty when the code is
`HANDLER_COMEBACK` and the path of before when it is any other code. -/
theorem physical_path_discarded_on_comeback (E : collaborators pcre cond_cache_t)
    (root : data_config × plugin_config pcre)
    (rest : List (data_config × plugin_config pcre)) (con : connection) :
    ((con.mode ≠ DIRECT ∨ (effective_selection E con root.2 rest).rewrite_NF = none ∨
        ∃ sce, E.stat_cache_get_entry con.physical_path = some sce ∧ sce.is_reg = true) →
      mod_rewrite_physical E (root :: rest) con = some (handler_t.HANDLER_GO_ON, con, [])) ∧
    (∀ kvb : rewrite_rule_buffer pcre, con.mode = DIRECT →
      (effective_selection E con root.2 rest).rewrite_NF = some kvb →
      (∀ sce, E.stat_cache_get_entry con.physical_path = some sce → sce.is_reg = false) →
      mod_rewrite_physical E (root :: rest) con
        = (process_rewrite_rules E (effective_selection E con root.2 rest).context_NF
            con kvb).map (fun o =>
            (o.1,
              { o.2.1 with
                physical_path :=
                  if o.1 = handler_t.HANDLER_COMEBACK then "" else con.physical_path },
              o.2.2))) := by
  constructor
  · intro hskip
    unfold mod_rewrite_physical
    split_ifs with hm
    · rfl
    · rw [patch_connection_eq]
      simp only
      cases hk : (effective_selection E con root.2 rest).rewrite_NF with
      | none => rfl
      | some kvb =>
        rcases hskip with h | h | ⟨sce, hs, hreg⟩
        · exact absurd h hm
        · rw [hk] at h; cases h
        · simp only [hs, hreg, if_true]
  · intro kvb hm hk hreg
    rw [← physical_switch_eq]
    unfold mod_rewrite_physical
    rw [patch_connection_eq]
    simp only [hm, ne_eq, not_true_eq_false, if_false, hk]
    cases hs : E.stat_cache_get_entry con.physical_path with
    | none => simp
    | some sce => simp [hreg sce hs]

/-- Witness of C15: with the if-not-file rule `^/a$ -> /b` in the global scope
and no file for the physical path, the hook runs the engine: on `/a` it returns
`HANDLER_COMEBACK` and the physical path is emptied, on `/z` it returns
`HANDLER_GO_ON` and the path is kept; in a mode other than `DIRECT` the phase is
skipped and nothing changes. -/
theorem physical_path_discarded_on_comeback_witness :
    mod_rewrite_physical example_collaborators
        ((⟨"global", "", "", 0, []⟩,
          ⟨some ⟨[], 0⟩, some ⟨[⟨"^/a$", "/b", 0⟩], 4⟩, none, none⟩) :: [])
        { plugin_ctx := none, uri := "/a", physical_path := "/srv/a", mode := 0 }
      = (process_rewrite_rules example_collaborators none
          { plugin_ctx := none, uri := "/a", physical_path := "/srv/a", mode := 0 }
          ⟨[⟨"^/a$", "/b", 0⟩], 4⟩).map (fun o =>
            (o.1,
              { o.2.1 with
                physical_path :=
                  if o.1 = handler_t.HANDLER_COMEBACK then "" else "/srv/a" },
              o.2.2)) ∧
    mod_rewrite_physical example_collaborators
        [(⟨"global", "", "", 0, []⟩,
          ⟨some ⟨[], 0⟩, some ⟨[⟨"^/a$", "/b", 0⟩], 4⟩, none, none⟩)]
        { plugin_ctx := none, uri := "/a", physical_path := "/srv/a", mode := 0 }
      = some (handler_t.HANDLER_COMEBACK,
          { plugin_ctx := some ⟨rewrite_state.REWRITE_STATE_UNSET, 0⟩, uri := "/b",
            physical_path := "", mode := 0 }, []) ∧
    mod_rewrite_physical example_collaborators
        [(⟨"global", "", "", 0, []⟩,
          ⟨some ⟨[], 0⟩, some ⟨[⟨"^/a$", "/b", 0⟩], 4⟩, none, none⟩)]
        { plugin_ctx := some ⟨rewrite_state.REWRITE_STATE_UNSET, 3⟩, uri := "/z",
          physical_path := "/srv/z", mode := 0 }
      = some (handler_t.HANDLER_GO_ON,
          { plugin_ctx := some ⟨rewrite_state.REWRITE_STATE_UNSET, 4⟩, uri := "/z",
            physical_path := "/srv/z", mode := 0 }, []) ∧
    mod_rewrite_physical example_collaborators
        ((⟨"global", "", "", 0, []⟩,
          ⟨some ⟨[], 0⟩, some ⟨[⟨"^/a$", "/b", 0⟩], 4⟩, none, none⟩) :: [])
        { plugin_ctx := none, uri := "/a", physical_path := "/srv/a", mode := 1 }
      = some (handler_t.HANDLER_GO_ON,
          { plugin_ctx := none, uri := "/a", physical_path := "/srv/a", mode := 1 }, []) :=
  ⟨(physical_path_discarded_on_comeback example_collaborators
      (⟨"global", "", "", 0, []⟩,
        ⟨some ⟨[], 0⟩, some ⟨[⟨"^/a$", "/b", 0⟩], 4⟩, none, none⟩) []
      { plugin_ctx := none, uri := "/a", physical_path := "/srv/a", mode := 0 }).2
      ⟨[⟨"^/a$", "/b", 0⟩], 4⟩ rfl rfl (fun _ h => Option.noConfusion h),
   by decide, by decide,
   (physical_path_discarded_on_comeback example_collaborators
      (⟨"global", "", "", 0, []⟩,
        ⟨some ⟨[], 0⟩, some ⟨[⟨"^/a$", "/b", 0⟩], 4⟩, none, none⟩) []
      { plugin_ctx := none, uri := "/a", physical_path := "/srv/a", mode := 1 }).1
      (Or.inl (by decide))⟩

/-- C17, amended: within a scope no directive overwrites another. For each
kind on its own: when the scope `dc`, loaded by `mod_rewrite_set_defaults`, is
the last matching scope that defines a key of the primary kind, the effective
primary rule set is the one rule set of `dc`, holding the rules of all its
primary directives (once, final, rewrite, repeat, in this order), and the
owning scope is `dc`; and when `dcn` is the last matching scope that defines a
key of the if-not-file kind, the effective if-not-file rule set is the one of
`dcn`, holding the rules of both its directives (if-not-file, then
repeat-if-not-file), and the owning scope is `dcn`. -/
theorem directives_of_a_scope_share_one_rule_set (E : collaborators pcre cond_cache_t)
    (con : connection) (root : data_config × plugin_config pcre)
    (rest : List (data_config × plugin_config pcre)) :
    (∀ dc : data_config,
      last_matching_scope E con is_primary_key rest = some (dc, (set_defaults_scope E dc).1) →
      ∃ conf kvb, mod_rewrite_patch_connection E con (root :: rest) = some conf ∧
        conf.rewrite = some kvb ∧ conf.context = some dc ∧
        kvb.ptr = directive_rules E dc.value "url.rewrite-once" 1
          ++ directive_rules E dc.value "url.rewrite-final" 1
          ++ directive_rules E dc.value "url.rewrite" 1
          ++ directive_rules E dc.value "url.rewrite-repeat" 0) ∧
    (∀ dcn : data_config,
      last_matching_scope E con is_NF_key rest = some (dcn, (set_defaults_scope E dcn).1) →
      ∃ conf nf, mod_rewrite_patch_connection E con (root :: rest) = some conf ∧
        conf.rewrite_NF = some nf ∧ conf.context_NF = some dcn ∧
        nf.ptr = directive_rules E dcn.value "url.rewrite-if-not-file" 1
          ++ directive_rules E dcn.value "url.rewrite-repeat-if-not-file" 0) := by
  constructor
  · intro dc hp
    obtain ⟨kvb, _, hk, _, hkp, _⟩ := set_defaults_scope_rules E dc
    refine ⟨_, kvb, patch_connection_eq E con root rest, ?_, ?_, hkp⟩
    · simp only [effective_selection, hp, hk]
    · simp only [effective_selection, hp, Option.map_some']
  · intro dcn hn
    obtain ⟨_, nf, _, hf, _, hfp⟩ := set_defaults_scope_rules E dcn
    refine ⟨_, nf, patch_connection_eq E con root rest, ?_, ?_, hfp⟩
    · simp only [effective_selection, hn, hf]
    · simp only [effective_selection, hn, Option.map_some']

/-- Witness of C17 (amended): the matching scope declares `url.rewrite-once`
and then `url.rewrite-repeat`, and no if-not-file directive; its primary rule
set holds the once-rule and the repeat-rule together. A scope that declares
`url.rewrite-repeat-if-not-file` and then `url.rewrite-if-not-file` has both
rules in its if-not-file rule set. -/
theorem directives_of_a_scope_share_one_rule_set_witness :
    (∃ conf kvb, mod_rewrite_patch_connection example_collaborators
        { plugin_ctx := none, uri := "/a", physical_path := "", mode := 0 }
        ((⟨"global", "", "", 0, []⟩, ⟨some ⟨[], 0⟩, some ⟨[], 0⟩, none, none⟩) ::
          [(example_once_then_repeat,
            (set_defaults_scope example_collaborators example_once_then_repeat).1)])
        = some conf ∧
      conf.rewrite = some kvb ∧ conf.context = some example_once_then_repeat ∧
      kvb.ptr = [⟨"^/a$", "/o", 1⟩, ⟨"^/b$", "/r", 0⟩]) ∧
    (∃ conf nf, mod_rewrite_patch_connection example_collaborators
        { plugin_ctx := none, uri := "/a", physical_path := "", mode := 0 }
        ((⟨"global", "", "", 0, []⟩, ⟨some ⟨[], 0⟩, some ⟨[], 0⟩, none, none⟩) ::
          [(⟨"HTTP[host]", "==", "example.org", 1,
              [⟨"url.rewrite-repeat-if-not-file", data_value.kvlist [("^/c$", "/m")]⟩,
               ⟨"url.rewrite-if-not-file", data_value.kvlist [("^/d$", "/n")]⟩]⟩,
            (set_defaults_scope example_collaborators
              ⟨"HTTP[host]", "==", "example.org", 1,
                [⟨"url.rewrite-repeat-if-not-file", data_value.kvlist [("^/c$", "/m")]⟩,
                 ⟨"url.rewrite-if-not-file", data_value.kvlist [("^/d$", "/n")]⟩]⟩).1)])
        = some conf ∧
      conf.rewrite_NF = some nf ∧
      conf.context_NF = some ⟨"HTTP[host]", "==", "example.org", 1,
              [⟨"url.rewrite-repeat-if-not-file", data_value.kvlist [("^/c$", "/m")]⟩,
               ⟨"url.rewrite-if-not-file", data_value.kvlist [("^/d$", "/n")]⟩]⟩ ∧
      nf.ptr = [⟨"^/d$", "/n", 1⟩, ⟨"^/c$", "/m", 0⟩]) :=
  ⟨(directives_of_a_scope_share_one_rule_set example_collaborators
      { plugin_ctx := none, uri := "/a", physical_path := "", mode := 0 }
      (⟨"global", "", "", 0, []⟩, ⟨some ⟨[], 0⟩, some ⟨[], 0⟩, none, none⟩)
      [(example_once_then_repeat,
        (set_defaults_scope example_collaborators example_once_then_repeat).1)]).1
      example_once_then_repeat rfl,
   (directives_of_a_scope_share_one_rule_set example_collaborators
      { plugin_ctx := none, uri := "/a", physical_path := "", mode := 0 }
      (⟨"global", "", "", 0, []⟩, ⟨some ⟨[], 0⟩, some ⟨[], 0⟩, none, none⟩)
      [(⟨"HTTP[host]", "==", "example.org", 1,
          [⟨"url.rewrite-repeat-if-not-file", data_value.kvlist [("^/c$", "/m")]⟩,
           ⟨"url.rewrite-if-not-file", data_value.kvlist [("^/d$", "/n")]⟩]⟩,
        (set_defaults_scope example_collaborators
          ⟨"HTTP[host]", "==", "example.org", 1,
            [⟨"url.rewrite-repeat-if-not-file", data_value.kvlist [("^/c$", "/m")]⟩,
             ⟨"url.rewrite-if-not-file", data_value.kvlist [("^/d$", "/n")]⟩]⟩).1)]).2
      _ rfl⟩

end claims

end ModRewrite
